import Mathlib

/-!
jadwal-RH: client-side reconciliation of the change feed.

A shallow embedding of the list-reconciliation callbacks of
`src/components/Dashboard.jsx` and `src/hooks/useRealtime.js`, of
`requestJoinClass`, `formatSupabaseError` and the write helpers of
`src/lib/supabase.js`, and of the gates, handlers, effects and validations of
`App` and of the components `MemberManagement`, `ScheduleList`, `EditSchedule`,
`AddSchedule`, `JoinClass`, `CreateClass`, `ClassSettingsPage`, `Header` and
`Dashboard`, followed by the properties proved about them.

A component's rendering is embedded as the list of the mutation buttons it
renders, each with its `disabled` attribute; an asynchronous handler is embedded
as the function from the state it reads and the answers of the remote store to
the state it leaves and the calls it issued.

React state updates of the form `setX(prev => e)` are embedded as the pure
function `prev ↦ e` on the state they update.
-/

set_option autoImplicit false

namespace JadwalRH

/-! ## Data model -/

/-- A JavaScript value as it is delivered in a JSON row image. Strict equality
(`===`) on these values is structural equality: JSON carries no `NaN`. -/
inductive JsValue where
  | undefined
  | null
  | bool (b : Bool)
  | num (n : Int)
  | str (s : String)
deriving DecidableEq, Repr

/-- A row image of a remote table: its `id` column and its other columns. -/
structure Row where
  id : JsValue
  cols : List (String × JsValue)
deriving DecidableEq, Repr

/-- The payload of one change event of the feed: the event kind and the new and
old row images. -/
structure Payload where
  eventType : String
  new : Row
  old : Row
deriving DecidableEq, Repr

/-! ## Feed callbacks (Dashboard.jsx 50-87, useRealtime.js 23-39) -/

namespace Dashboard

/-- The callback given to `subscribeToSchedules` (Dashboard.jsx 50-67), as the
update it applies to the `schedules` state. -/
def subscribeToSchedulesCallback (payload : Payload) (prev : List Row) : List Row :=
  if payload.eventType = "INSERT" then
    prev ++ [payload.new]
  else if payload.eventType = "UPDATE" then
    prev.map (fun schedule => if schedule.id = payload.new.id then payload.new else schedule)
  else if payload.eventType = "DELETE" then
    prev.filter (fun schedule => decide (schedule.id ≠ payload.old.id))
  else
    prev

/-- The callback given to `subscribeToClassMembers` (Dashboard.jsx 70-87), as the
update it applies to the `members` state. -/
def subscribeToClassMembersCallback (payload : Payload) (prev : List Row) : List Row :=
  if payload.eventType = "INSERT" then
    prev ++ [payload.new]
  else if payload.eventType = "UPDATE" then
    prev.map (fun member => if member.id = payload.new.id then payload.new else member)
  else if payload.eventType = "DELETE" then
    prev.filter (fun member => decide (member.id ≠ payload.old.id))
  else
    prev

/-- The `onScheduleAdded` prop handed to `AddSchedule` (Dashboard.jsx 663-667),
as the update it applies to the `schedules` state. -/
def onScheduleAdded (newSchedule : Row) (prev : List Row) : List Row :=
  prev ++ [newSchedule]

end Dashboard

namespace useScheduleRealtime

/-- The callback given to `db.subscribeToScheduleChanges` (useRealtime.js 23-39),
as the update it applies to the hook's `schedules` state. -/
def subscribeToScheduleChangesCallback (payload : Payload) (prev : List Row) : List Row :=
  if payload.eventType = "INSERT" then
    prev ++ [payload.new]
  else if payload.eventType = "UPDATE" then
    prev.map (fun schedule => if schedule.id = payload.new.id then payload.new else schedule)
  else if payload.eventType = "DELETE" then
    prev.filter (fun schedule => decide (schedule.id ≠ payload.old.id))
  else
    prev

end useScheduleRealtime

/-- The three feed subscriptions whose callback reconciles a local list. -/
inductive Feed where
  | dashboardSchedules
  | dashboardMembers
  | hookSchedules
deriving DecidableEq, Repr

/-- The callback of a feed. -/
def Feed.handler : Feed → Payload → List Row → List Row
  | .dashboardSchedules => Dashboard.subscribeToSchedulesCallback
  | .dashboardMembers => Dashboard.subscribeToClassMembersCallback
  | .hookSchedules => useScheduleRealtime.subscribeToScheduleChangesCallback

/-- The local list after the events of `events` were delivered in order. -/
def Feed.applyAll (f : Feed) (events : List Payload) (prev : List Row) : List Row :=
  events.foldl (fun state payload => f.handler payload state) prev

/-- The replacement an UPDATE event with new row `r` performs on one element. -/
def replaceById (r : Row) (e : Row) : Row :=
  if e.id = r.id then r else e

/-- Number of elements of a list that carry the id `x`. -/
def countId (x : JsValue) (l : List Row) : Nat :=
  l.countP (fun e => decide (e.id = x))

/-- The element an element `e` ends as after the UPDATE events of `events`
were applied in order. -/
def replaceAll (events : List Payload) (e : Row) : Row :=
  events.foldl (fun x p => replaceById p.new x) e

/-! ### Sample rows and events -/

def rowA : Row := ⟨.num 1, [("title", .str "PR Matematika")]⟩
def rowA2 : Row := ⟨.num 1, [("title", .str "PR Fisika")]⟩
def rowB : Row := ⟨.num 2, [("title", .str "Ujian Kimia")]⟩
def rowC : Row := ⟨.num 3, [("title", .str "PR Biologi")]⟩
def noRow : Row := ⟨.undefined, []⟩

/-! ## Remote calls (lib/supabase.js) -/

/-- An error object of the remote client: each field may be absent. -/
structure SupabaseError where
  message : Option String
  details : Option String
  code : Option String
deriving DecidableEq, Repr

/-- The `{ data, error }` pair every remote call resolves to. -/
structure Response (α : Type) where
  data : Option α
  error : Option SupabaseError
deriving DecidableEq, Repr

/-- The columns `checkClassAvailability` selects from `classes_with_stats`. -/
structure ClassStats where
  member_limit : Nat
  approved_members : Nat
  remaining_quota : Nat
  is_full : Bool
deriving DecidableEq, Repr

/-- The object `requestJoinClass` passes to `insert` on `class_members`. -/
structure ClassMemberInsert where
  class_id : JsValue
  user_id : JsValue
  status : String
deriving DecidableEq, Repr

/-- A request sent to the remote store. -/
inductive RemoteCall where
  | selectClassStats (classId : JsValue)
  | insertClassMember (row : ClassMemberInsert)
deriving DecidableEq, Repr

/-- The remote store, as the answers it gives to the two requests of
`requestJoinClass`. -/
structure Remote where
  classesWithStats : JsValue → Response ClassStats
  insertClassMember : ClassMemberInsert → Response Row

/-- Modelled from the spec: the `is_full` column of the remote view
`classes_with_stats`, whose definition is not part of the sources. The spec
describes it as the fullness flag computed from the approved-member count
versus the limit. -/
def classes_with_stats_is_full (member_limit approved_members : Nat) : Bool :=
  decide (member_limit ≤ approved_members)

/-- Function `checkClassAvailability` (supabase.js 207-215): one read of the
capacity columns; returns the response and the requests issued. -/
def checkClassAvailability (db : Remote) (classId : JsValue) :
    Response ClassStats × List RemoteCall :=
  (db.classesWithStats classId, [RemoteCall.selectClassStats classId])

/-- Function `requestJoinClass` (supabase.js 222-251); returns the response and
the requests issued, in order. -/
def requestJoinClass (db : Remote) (classId userId : JsValue) :
    Response Row × List RemoteCall :=
  let (stats, calls) := checkClassAvailability db classId
  match stats.error with
  | some statsError => ({ data := none, error := some statsError }, calls)
  | none =>
    match stats.data with
    | some classStats =>
      if classStats.is_full then
        ({ data := none,
           error := some
            { message := some ("Kelas sudah penuh. Batas maksimal " ++
                toString classStats.member_limit ++ " anggota.")
              details := none
              code := some "CLASS_FULL" } }, calls)
      else
        let row : ClassMemberInsert :=
          { class_id := classId, user_id := userId, status := "pending" }
        (db.insertClassMember row, calls ++ [RemoteCall.insertClassMember row])
    | none =>
      let row : ClassMemberInsert :=
        { class_id := classId, user_id := userId, status := "pending" }
      (db.insertClassMember row, calls ++ [RemoteCall.insertClassMember row])

/-! ## Error formatting (supabase.js 440-462) -/

/-- JavaScript `a || b` on optional strings: `a` unless it is absent or empty. -/
def orElse (a : Option String) (b : String) : String :=
  match a with
  | some s => if s = "" then b else s
  | none => b

/-- JavaScript `s.toLowerCase()`, on the ASCII letters. The mapped substrings
are ASCII; letters outside ASCII are left as they are. -/
def toLowerCase (s : String) : String :=
  ⟨s.data.map Char.toLower⟩

/-- JavaScript `s.includes(key)`: `key` occurs in `s` as a contiguous block. -/
def includes (s key : String) : Bool :=
  s.data.tails.any (fun t => key.data.isPrefixOf t)

/-- The table `errorMappings`, in insertion order (the order `Object.entries`
enumerates it in). -/
def errorMappings : List (String × String) :=
  [ ("duplicate key value violates unique constraint", "Data sudah ada"),
    ("violates foreign key constraint", "Data terkait tidak ditemukan"),
    ("violates not-null constraint", "Data wajib tidak boleh kosong"),
    ("permission denied", "Tidak memiliki izin untuk aksi ini"),
    ("kelas sudah penuh", "Kelas sudah mencapai batas maksimal anggota") ]

/-- Function `formatSupabaseError` (supabase.js 441-462). -/
def formatSupabaseError (error : Option SupabaseError) : Option String :=
  match error with
  | none => none
  | some error =>
    let errorMessage := orElse error.message (orElse error.details "Terjadi kesalahan")
    match errorMappings.find? (fun entry => includes (toLowerCase errorMessage) entry.1) with
    | some entry => some entry.2
    | none => some errorMessage

/-! ## JavaScript values, objects and strings -/

/-- JavaScript truthiness of a value (the test of `if (v)`, `!v`, `v || w`). -/
def JsValue.truthy : JsValue → Bool
  | .undefined => false
  | .null => false
  | .bool b => b
  | .num n => decide (n ≠ 0)
  | .str s => decide (s ≠ "")

/-- A JavaScript object as the list of its own properties, in insertion order. -/
abbrev JsObject := List (String × JsValue)

/-- The property names of an object. -/
def JsObject.keys (o : JsObject) : List String :=
  o.map Prod.fst

/-- Property read `o.k`: `undefined` when the object has no property `k`. -/
def JsObject.prop (o : JsObject) (k : String) : JsValue :=
  match o.find? (fun kv => kv.1 = k) with
  | some kv => kv.2
  | none => .undefined

/-- Property write `o.k = v`: replaces the value of `k` in place, or appends the
property when the object has none of that name. -/
def JsObject.set (o : JsObject) (k : String) (v : JsValue) : JsObject :=
  if o.any (fun kv => kv.1 = k) then
    o.map (fun kv => if kv.1 = k then (k, v) else kv)
  else
    o ++ [(k, v)]

/-- Object spread `{...a, ...b}`: the properties of `b` written one by one onto a
copy of `a`. -/
def JsObject.spread (a b : JsObject) : JsObject :=
  b.foldl (fun o kv => o.set kv.1 kv.2) a

/-- Column read `row.k` on a row image; `row.id` is the `id` field itself. -/
def Row.col (r : Row) (k : String) : JsValue :=
  JsObject.prop r.cols k

/-- The characters `String.prototype.trim` strips: the WhiteSpace and
LineTerminator code points of ECMAScript. -/
def isJsWhitespace (c : Char) : Bool :=
  let n := c.toNat
  n = 0x09 || n = 0x0A || n = 0x0B || n = 0x0C || n = 0x0D || n = 0x20 || n = 0xA0 ||
  n = 0x1680 || (0x2000 ≤ n && n ≤ 0x200A) || n = 0x2028 || n = 0x2029 || n = 0x202F ||
  n = 0x205F || n = 0x3000 || n = 0xFEFF

/-- JavaScript `s.trim()`. -/
def trim (s : String) : String :=
  ⟨((s.data.dropWhile isJsWhitespace).reverse.dropWhile isJsWhitespace).reverse⟩

/-- JavaScript `s.toUpperCase()`, on the ASCII letters; letters outside ASCII are
left as they are. -/
def toUpperCase (s : String) : String :=
  ⟨s.data.map Char.toUpper⟩

/-! ## Props shared by the components -/

/-- The signed-in user object, as far as the components read it. -/
structure User where
  id : JsValue
  email : Option String
deriving DecidableEq, Repr

/-- The profile row, as far as the components read it. -/
structure Profile where
  role : JsValue
  full_name : Option String
deriving DecidableEq, Repr

/-- The class object held as `userClass`, as far as the components read it. -/
structure UserClass where
  id : JsValue
  creator_id : JsValue
  name : String
deriving DecidableEq, Repr

/-- Optional chaining `user?.id`. -/
def userId (user : Option User) : JsValue :=
  match user with
  | some u => u.id
  | none => .undefined

/-- Optional chaining `profile?.role`. -/
def profileRole (profile : Option Profile) : JsValue :=
  match profile with
  | some p => p.role
  | none => .undefined

/-- Optional chaining `userClass?.creator_id`. -/
def classCreatorId (userClass : Option UserClass) : JsValue :=
  match userClass with
  | some c => c.creator_id
  | none => .undefined

/-- Optional chaining `userClass?.id`. -/
def userClassId (userClass : Option UserClass) : JsValue :=
  match userClass with
  | some c => c.id
  | none => .undefined

/-- The mutation a rendered control triggers when it is pressed. -/
inductive Action where
  | addSchedule
  | editSchedule (scheduleId : JsValue)
  | deleteSchedule (scheduleId : JsValue)
  | approveMember (memberId : JsValue)
  | rejectMember (memberId : JsValue)
deriving DecidableEq, Repr

/-- A rendered button: what it triggers and its `disabled` attribute (a button
without the attribute is enabled). -/
structure Control where
  action : Action
  disabled : Bool
deriving DecidableEq, Repr

/-- A call of one of the mutation helpers of `lib/supabase.js`. -/
inductive ApiCall where
  | updateMemberStatus (memberId : JsValue) (status : String)
  | deleteSchedule (scheduleId : JsValue)
  | updateSchedule (scheduleId : JsValue) (updates : JsObject)
  | createSchedule (scheduleData : JsObject)
  | updateClass (classId : JsValue) (updates : JsObject)
deriving DecidableEq, Repr

/-- The answers of the remote store to the helpers the components call. -/
structure Api where
  updateMemberStatus : JsValue → String → Response Row
  deleteSchedule : JsValue → Response Row
  updateSchedule : JsValue → JsObject → Response Row
  createSchedule : JsObject → Response Row
  updateClass : JsValue → JsObject → Response JsObject

/-! ## MemberManagement.jsx -/

namespace MemberManagement

/-- The props of `MemberManagement` and the state it renders from. -/
structure Props where
  user : Option User
  profile : Option Profile
  userClass : Option UserClass
  members : List Row
  isOnline : Bool
  activeTab : String
  processingMembers : List JsValue
  expandedMembers : List JsValue

/-- Constant `canManageMembers` (MemberManagement.jsx 127-128). -/
def canManageMembers (p : Props) : Bool :=
  decide (profileRole p.profile = .str "creator") &&
    decide (userId p.user = classCreatorId p.userClass)

/-- The approve and reject buttons of one `MemberCard` (MemberManagement.jsx
195-389): the mobile block (266-293) followed by the desktop block (344-371). -/
def MemberCard (p : Props) (member : Row) (status : String) (showActions : Bool) :
    List Control :=
  let isProcessing := p.processingMembers.contains member.id
  let isExpanded := p.expandedMembers.contains member.id
  let buttons : List Control :=
    [ { action := .rejectMember member.id, disabled := isProcessing || !p.isOnline },
      { action := .approveMember member.id, disabled := isProcessing || !p.isOnline } ]
  (if showActions && canManageMembers p && decide (status = "pending") && (isExpanded || true)
    then buttons else []) ++
  (if decide (status = "pending") && canManageMembers p then buttons else [])

/-- The approve and reject buttons `MemberManagement` renders: the cards of the
active tab (MemberManagement.jsx 554-659). -/
def controls (p : Props) : List Control :=
  let approvedMembers := p.members.filter (fun member => member.col "status" = .str "approved")
  let pendingMembers := p.members.filter (fun member => member.col "status" = .str "pending")
  let rejectedMembers := p.members.filter (fun member => member.col "status" = .str "rejected")
  (if p.activeTab = "approved" then
    approvedMembers.flatMap (fun member => MemberCard p member "approved" false) else []) ++
  (if p.activeTab = "pending" then
    pendingMembers.flatMap (fun member => MemberCard p member "pending" true) else []) ++
  (if decide (p.activeTab = "rejected") && canManageMembers p then
    rejectedMembers.flatMap (fun member => MemberCard p member "rejected" false) else [])

/-- What a handler of `MemberManagement` did: the helper calls it issued, the
value it left in the `error` state and whether it called `onMemberUpdate`. -/
structure Outcome where
  calls : List ApiCall
  error : Option String
  refreshed : Bool
deriving DecidableEq, Repr

/-- Function `handleApproveMember` (MemberManagement.jsx 41-71). -/
def handleApproveMember (api : Api) (isOnline : Bool) (memberId : JsValue) : Outcome :=
  if !isOnline then
    { calls := [], error := some "Tidak dapat memproses anggota saat offline", refreshed := false }
  else
    match (api.updateMemberStatus memberId "approved").error with
    | some updateError =>
      { calls := [.updateMemberStatus memberId "approved"],
        error := formatSupabaseError (some updateError), refreshed := false }
    | none =>
      { calls := [.updateMemberStatus memberId "approved"], error := some "", refreshed := true }

/-- Function `handleRejectMember` (MemberManagement.jsx 73-110); `confirmed` is
the answer of `window.confirm`, `error₀` the `error` state before the call. -/
def handleRejectMember (api : Api) (isOnline : Bool) (confirmed : Bool)
    (error₀ : Option String) (memberId : JsValue) : Outcome :=
  if !isOnline then
    { calls := [], error := some "Tidak dapat memproses anggota saat offline", refreshed := false }
  else if !confirmed then
    { calls := [], error := error₀, refreshed := false }
  else
    match (api.updateMemberStatus memberId "rejected").error with
    | some updateError =>
      { calls := [.updateMemberStatus memberId "rejected"],
        error := formatSupabaseError (some updateError), refreshed := false }
    | none =>
      { calls := [.updateMemberStatus memberId "rejected"], error := some "", refreshed := true }

end MemberManagement

/-! ## ScheduleList.jsx, EditSchedule.jsx, AddSchedule.jsx, Dashboard.jsx -/

namespace ScheduleList

/-- The props of `ScheduleList` and the state it renders from; `shown` is the
page of schedules on display (`paginatedSchedules`). -/
structure Props where
  schedules : List Row
  shown : List Row
  user : Option User
  profile : Option Profile
  userClass : Option UserClass
  isOnline : Bool
  deleting : JsValue

/-- Constant `isClassCreator` (ScheduleList.jsx 37). -/
def isClassCreator (p : Props) : Bool :=
  decide (profileRole p.profile = .str "creator")

/-- The edit and delete buttons of one schedule card; the mobile card
(ScheduleList.jsx 408-427) and the desktop card (517-537) render the same two
buttons under the same condition. -/
def cardControls (p : Props) (schedule : Row) : List Control :=
  if isClassCreator p && p.isOnline then
    [ { action := .editSchedule schedule.id, disabled := false },
      { action := .deleteSchedule schedule.id, disabled := decide (p.deleting = schedule.id) } ]
  else []

/-- The edit and delete buttons `ScheduleList` renders: none in the empty state
(ScheduleList.jsx 200-217), else those of the mobile cards (371-474) followed by
those of the desktop cards (477-573) of the schedules on display. -/
def controls (p : Props) : List Control :=
  if p.schedules.length = 0 then []
  else p.shown.flatMap (cardControls p) ++ p.shown.flatMap (cardControls p)

/-- What `handleDelete` did: the helper calls it issued, the alert it showed and
whether it called `onScheduleUpdate`. -/
structure Outcome where
  calls : List ApiCall
  alert : Option String
  refreshed : Bool
deriving DecidableEq, Repr

/-- Function `handleDelete` (ScheduleList.jsx 81-106); `confirmed` is the answer
of `window.confirm`. -/
def handleDelete (api : Api) (isOnline : Bool) (confirmed : Bool) (scheduleId : JsValue) :
    Outcome :=
  if !isOnline then
    { calls := [], alert := some "Tidak dapat menghapus jadwal saat offline", refreshed := false }
  else if confirmed then
    match (api.deleteSchedule scheduleId).error with
    | some error =>
      { calls := [.deleteSchedule scheduleId],
        alert := some ("Gagal menghapus jadwal: " ++
          (formatSupabaseError (some error)).getD "null"),
        refreshed := false }
    | none => { calls := [.deleteSchedule scheduleId], alert := none, refreshed := true }
  else
    { calls := [], alert := none, refreshed := false }

end ScheduleList

namespace EditSchedule

/-- The `formData` state of `EditSchedule`. -/
structure FormData where
  title : String
  description : String
  schedule_date : String
  schedule_time : String
  type : String
deriving DecidableEq, Repr

/-- What `handleSubmit` did: the helper calls it issued, the alert it showed and
whether it called `onUpdate` and `onClose`. -/
structure Outcome where
  calls : List ApiCall
  alert : Option String
  closed : Bool
deriving DecidableEq, Repr

/-- The object `handleSubmit` passes to `updateSchedule` (EditSchedule.jsx
136-142). -/
def updates (formData : FormData) : JsObject :=
  [ ("title", .str (trim formData.title)),
    ("description", .str (trim formData.description)),
    ("schedule_date", .str formData.schedule_date),
    ("schedule_time", .str formData.schedule_time),
    ("type", .str formData.type) ]

/-- Function `handleSubmit` (EditSchedule.jsx 121-160); `valid` is what
`validateForm()` returns on the form. -/
def handleSubmit (api : Api) (isOnline : Bool) (valid : Bool) (schedule : Row)
    (formData : FormData) : Outcome :=
  if !isOnline then
    { calls := [], alert := some "Tidak dapat menyimpan perubahan saat offline", closed := false }
  else if !valid then
    { calls := [], alert := none, closed := false }
  else
    match (api.updateSchedule schedule.id (updates formData)).error with
    | some error =>
      { calls := [.updateSchedule schedule.id (updates formData)],
        alert := some ("Gagal menyimpan perubahan: " ++
          (formatSupabaseError (some error)).getD "null"),
        closed := false }
    | none =>
      { calls := [.updateSchedule schedule.id (updates formData)], alert := none,
        closed := true }

/-- The `disabled` attribute of the submit button (EditSchedule.jsx 480). -/
def submitDisabled (isLoading hasChanges isOnline : Bool) : Bool :=
  isLoading || !hasChanges || !isOnline

end EditSchedule

namespace AddSchedule

/-- The `formData` state of `AddSchedule`. -/
structure FormData where
  title : String
  description : String
  date : String
  time : String
  type : String
deriving DecidableEq, Repr

/-- What `handleSubmit` did: the helper calls it issued, the value it left in
`apiError`, the `data` it handed to `onScheduleAdded` and whether it went on to
`onScheduleAdded` and `onClose`. -/
structure Outcome where
  calls : List ApiCall
  apiError : Option String
  added : Option Row
  closed : Bool
deriving DecidableEq, Repr

/-- The object `handleSubmit` passes to `createSchedule` (AddSchedule.jsx
104-112). -/
def scheduleData (user : User) (userClass : UserClass) (formData : FormData) : JsObject :=
  [ ("class_id", userClass.id),
    ("title", .str (trim formData.title)),
    ("description", .str (trim formData.description)),
    ("date", .str formData.date),
    ("time", .str formData.time),
    ("type", .str formData.type),
    ("created_by", user.id) ]

/-- Function `handleSubmit` (AddSchedule.jsx 92-134); `valid` is what
`validateForm()` returns on the form, `apiError₀` the `apiError` state before the
call. The component reads no connectivity flag. -/
def handleSubmit (api : Api) (valid : Bool) (apiError₀ : Option String) (user : User)
    (userClass : UserClass) (formData : FormData) : Outcome :=
  if !valid then
    { calls := [], apiError := apiError₀, added := none, closed := false }
  else
    let response := api.createSchedule (scheduleData user userClass formData)
    match response.error with
    | some error =>
      { calls := [.createSchedule (scheduleData user userClass formData)],
        apiError := formatSupabaseError (some error), added := none, closed := false }
    | none =>
      { calls := [.createSchedule (scheduleData user userClass formData)],
        apiError := some "", added := response.data, closed := true }

end AddSchedule

namespace Dashboard

/-- The props of `Dashboard` and the state its add-schedule buttons are rendered
from. -/
structure Props where
  user : Option User
  profile : Option Profile
  userClass : Option UserClass
  loading : Bool
  isOnline : Bool
  activeTab : String

/-- The add-schedule buttons `Dashboard` renders: none in the loading view
(Dashboard.jsx 253-278), else the mobile button (564-574) followed by the
desktop button (615-623). Neither carries a `disabled` attribute. -/
def addScheduleControls (p : Props) : List Control :=
  if p.loading then []
  else
    (if decide (profileRole p.profile = .str "creator") && decide (p.activeTab = "schedule")
      then [{ action := .addSchedule, disabled := false }] else []) ++
    (if decide (profileRole p.profile = .str "creator") && decide (p.activeTab = "schedule")
      then [{ action := .addSchedule, disabled := false }] else [])

end Dashboard

/-! ## JoinClass.jsx -/

namespace JoinClass

/-- One entry of `searchResults`, as `handleSearch` formats it (JoinClass.jsx
52-76). -/
structure SearchResult where
  id : JsValue
  name : String
  description : String
  prodi : String
  creator : String
  creator_id : JsValue
  member_limit : Nat
  current_members : Nat
  remaining_quota : Nat
  is_full : Bool
  created_at : String
  status : String
  membershipStatus : Option String
deriving DecidableEq, Repr

/-- What `getJoinButtonState` returns. -/
structure ButtonState where
  text : String
  disabled : Bool
  icon : String
  className : String
deriving DecidableEq, Repr

/-- The state of `JoinClass` that `handleJoinRequest` reads and writes. -/
structure State where
  searchResults : List SearchResult
  error : Option String
  joiningClassId : JsValue
  currentUser : Option User
deriving DecidableEq, Repr

/-- Function `getJoinButtonState` (JoinClass.jsx 185-246). -/
def getJoinButtonState (joiningClassId : JsValue) (classData : SearchResult) : ButtonState :=
  if joiningClassId = classData.id then
    { text := "Mengirim...", disabled := true, icon := "FiClock",
      className := "bg-gray-400 text-gray-700 cursor-not-allowed" }
  else if classData.membershipStatus = some "approved" then
    { text := "Sudah Bergabung", disabled := true, icon := "FiCheck",
      className := "bg-green-200 text-green-700 cursor-not-allowed" }
  else if classData.membershipStatus = some "pending" then
    { text := "Menunggu Persetujuan", disabled := true, icon := "FiClock",
      className := "bg-yellow-200 text-yellow-700 cursor-not-allowed" }
  else if classData.membershipStatus = some "rejected" then
    { text := "Ditolak", disabled := true, icon := "FiX",
      className := "bg-red-200 text-red-700 cursor-not-allowed" }
  else if classData.is_full then
    { text := "Penuh", disabled := true, icon := "FiX",
      className := "bg-gray-300 text-gray-500 cursor-not-allowed" }
  else if classData.status ≠ "active" then
    { text := "Tidak Aktif", disabled := true, icon := "FiX",
      className := "bg-gray-300 text-gray-500 cursor-not-allowed" }
  else
    { text := "Gabung", disabled := false, icon := "FiUserPlus",
      className := "bg-gradient-to-r from-green-500 to-emerald-600 " ++
        "hover:from-green-600 hover:to-emerald-700 text-white" }

/-- The message of the error thrown for a failed join (JoinClass.jsx 144-153),
which the `catch` block stores in `error`. -/
def joinErrorMessage (joinError : SupabaseError) : String :=
  if joinError.code = some "23505" then
    "Anda sudah mengirim permintaan atau sudah bergabung dengan kelas ini"
  else if joinError.code = some "CLASS_FULL" then
    joinError.message.getD ""
  else
    (formatSupabaseError (some joinError)).getD "null"

/-- Function `handleJoinRequest` (JoinClass.jsx 99-170); `confirmed` is the
answer of `window.confirm`. Returns the state it leaves and the requests it
sent to the store. -/
def handleJoinRequest (db : Remote) (confirmed : Bool) (classData : SearchResult)
    (s : State) : State × List RemoteCall :=
  match s.currentUser with
  | none => ({ s with error := some "Anda harus login terlebih dahulu" }, [])
  | some currentUser =>
    if classData.membershipStatus = some "approved" then
      ({ s with error := some "Anda sudah menjadi anggota kelas ini" }, [])
    else if classData.membershipStatus = some "pending" then
      ({ s with error := some ("Anda sudah mengirim permintaan ke kelas ini. " ++
          "Menunggu persetujuan admin.") }, [])
    else if classData.membershipStatus = some "rejected" then
      ({ s with error := some "Permintaan Anda telah ditolak oleh admin kelas ini" }, [])
    else if classData.is_full then
      ({ s with error := some ("Kelas " ++ classData.name ++ " sudah penuh (" ++
          toString classData.member_limit ++ "/" ++ toString classData.member_limit ++
          " anggota)") }, [])
    else if !confirmed then
      (s, [])
    else
      let (response, calls) := requestJoinClass db classData.id currentUser.id
      match response.error with
      | some joinError =>
        ({ s with error := some (joinErrorMessage joinError), joiningClassId := .null }, calls)
      | none =>
        ({ s with
            searchResults := s.searchResults.map (fun result =>
              if result.id = classData.id then
                { result with membershipStatus := some "pending" }
              else result),
            error := none,
            joiningClassId := .null }, calls)

end JoinClass

/-! ## Writes of lib/supabase.js -/

/-- An `update(...).eq(column, value)` request on a table of the store. -/
structure UpdateRequest where
  table : String
  updates : JsObject
  eqColumn : String
  eqValue : JsValue
deriving DecidableEq, Repr

/-- Function `updateMemberStatus` (supabase.js 265-283), as the request it
sends; `now₁` and `now₂` are the two readings of the clock. -/
def updateMemberStatus (memberId : JsValue) (status : String) (now₁ now₂ : String) :
    UpdateRequest :=
  let updates : JsObject := [("status", .str status), ("updated_at", .str now₁)]
  let updates := if status = "approved" then updates.set "joined_at" (.str now₂) else updates
  { table := "class_members", updates := updates, eqColumn := "id", eqValue := memberId }

/-- Modelled from the spec: the remote store's update-by-id, which is not part
of the sources. A request changes the rows whose filter column equals the
filter value, by writing the updates onto them, and no other row. -/
def UpdateRequest.run (req : UpdateRequest) (rows : List JsObject) : List JsObject :=
  rows.map (fun row =>
    if row.prop req.eqColumn = req.eqValue then row.spread req.updates else row)

/-- Function `updateClass` (supabase.js 103-115), as the request it sends. -/
def updateClass (classId : JsValue) (updates : JsObject) (now : String) : UpdateRequest :=
  { table := "classes", updates := updates.spread [("updated_at", .str now)],
    eqColumn := "id", eqValue := classId }

/-- The argument of `createClass`. -/
structure ClassData where
  name : String
  description : String
  creator_id : JsValue
  member_limit : Option Nat
  prodi : Option String
deriving DecidableEq, Repr

/-- The object `createClass` inserts into `classes`. -/
structure ClassInsert where
  name : String
  description : String
  creator_id : JsValue
  member_limit : Nat
  prodi : String
deriving DecidableEq, Repr

/-- Function `createClass` (supabase.js 118-132), as the row it inserts. -/
def createClass (classData : ClassData) : ClassInsert :=
  { name := toUpperCase classData.name
    description := classData.description
    creator_id := classData.creator_id
    member_limit :=
      match classData.member_limit with
      | some n => if n = 0 then 30 else n
      | none => 30
    prodi := orElse classData.prodi "Teknik Informatika" }

/-! ## ClassSettingsPage.jsx -/

namespace ClassSettingsPage

/-- The `formData` state of `ClassSettingsPage`. -/
structure FormData where
  name : String
  description : String
  prodi : String
deriving DecidableEq, Repr

/-- The state `handleSave` leaves and the helper calls it issued. -/
structure Outcome where
  calls : List ApiCall
  classData : Option JsObject
  error : Option String
  success : Bool
deriving DecidableEq, Repr

/-- The object `updateData` (ClassSettingsPage.jsx 147-151). -/
def updateData (formData : FormData) : JsObject :=
  [ ("name", .str (toUpperCase (trim formData.name))),
    ("description", .str (trim formData.description)),
    ("prodi", .str formData.prodi) ]

/-- Function `handleSave` (ClassSettingsPage.jsx 127-179); `classData` and
`success₀` are the state before the call. -/
def handleSave (api : Api) (user : Option User) (isCreator : Bool) (classId : JsValue)
    (formData : FormData) (classData : Option JsObject) (success₀ : Bool) : Outcome :=
  if user.isNone || !isCreator then
    { calls := [], classData := classData,
      error := some "Anda tidak memiliki izin untuk mengubah kelas ini", success := success₀ }
  else if trim formData.name = "" then
    { calls := [], classData := classData,
      error := some "Nama kelas tidak boleh kosong", success := success₀ }
  else if trim formData.description = "" then
    { calls := [], classData := classData,
      error := some "Deskripsi kelas tidak boleh kosong", success := success₀ }
  else
    match (api.updateClass classId (updateData formData)).error with
    | some updateError =>
      { calls := [.updateClass classId (updateData formData)], classData := classData,
        error := some ((formatSupabaseError (some updateError)).getD "null"),
        success := success₀ }
    | none =>
      { calls := [.updateClass classId (updateData formData)],
        classData := some ((classData.getD []).spread (updateData formData)),
        error := none, success := true }

end ClassSettingsPage

namespace Dashboard

/-- The state `loadDashboardData` writes. -/
structure State where
  schedules : List Row
  members : List Row
  loading : Bool
  error : Option String
deriving DecidableEq, Repr

/-- Function `loadDashboardData` (Dashboard.jsx 121-154), given what the two
fetches resolve to. -/
def loadDashboardData (userClass : Option UserClass)
    (schedulesResult membersResult : Response (List Row)) (s : State) : State :=
  if !(userClassId userClass).truthy then s
  else
    let s := { s with loading := true, error := none }
    let s :=
      match schedulesResult.error with
      | some error => { s with error := formatSupabaseError (some error) }
      | none => { s with schedules := schedulesResult.data.getD [] }
    let s :=
      match membersResult.error with
      | some error => { s with error := formatSupabaseError (some error) }
      | none => { s with members := membersResult.data.getD [] }
    { s with loading := false }

end Dashboard

/-! ## Feed subscriptions and the effects that open them -/

/-- An operation on the change feed: opening or cancelling the subscription of a
channel for a scope id. -/
inductive FeedOp where
  | subscribe (channel : String) (scope : JsValue)
  | unsubscribe (channel : String) (scope : JsValue)
deriving DecidableEq, Repr

/-- One run of a React effect: what it does when it runs, and the cleanup it
returns to React (`none` when the effect callback returns nothing). -/
structure EffectRun where
  ops : List FeedOp
  cleanup : Option (List FeedOp)
deriving DecidableEq, Repr

/-- What React runs for a cleanup: nothing when the effect returned none. -/
def cleanupOps (cleanup : Option (List FeedOp)) : List FeedOp :=
  cleanup.getD []

/-- React's rule for an effect after it has run: when the dependency changes, the
cleanup of the previous run is called and then the effect runs again; when the
component unmounts, the last cleanup is called. -/
def lifecycleFrom (effect : JsValue → EffectRun) (cleanup : Option (List FeedOp)) :
    List JsValue → List FeedOp
  | [] => cleanupOps cleanup
  | scope :: later =>
    cleanupOps cleanup ++ (effect scope).ops ++ lifecycleFrom effect (effect scope).cleanup later

/-- The feed operations of a component over its life: mounted with the first
dependency value of `scopes`, re-run at each later value, then unmounted. -/
def lifecycle (effect : JsValue → EffectRun) (scopes : List JsValue) : List FeedOp :=
  match scopes with
  | [] => []
  | scope :: later => (effect scope).ops ++ lifecycleFrom effect (effect scope).cleanup later

/-- The subscriptions still open after a sequence of feed operations. -/
def openAfter (ops : List FeedOp) : List (String × JsValue) :=
  ops.foldl (fun opened op =>
    match op with
    | .subscribe channel scope => opened ++ [(channel, scope)]
    | .unsubscribe channel scope => opened.filter (fun s => decide (s ≠ (channel, scope)))) []

namespace Dashboard

/-- The realtime effect of `Dashboard` (Dashboard.jsx 42-100) at the dependency
value `userClass?.id`. -/
def realtimeEffect (classId : JsValue) : EffectRun :=
  if !classId.truthy then
    { ops := [], cleanup := some [] }
  else
    { ops := [.subscribe "schedules" classId, .subscribe "class_members" classId],
      cleanup := some [.unsubscribe "schedules" classId, .unsubscribe "class_members" classId] }

end Dashboard

namespace Header

/-- Function `setupNotificationSubscription` (Header.jsx 98-115) for the user id
`userId`: the operations it performs and the cleanup function it returns. -/
def setupNotificationSubscription (userId : JsValue) : List FeedOp × Option (List FeedOp) :=
  if !userId.truthy then ([], none)
  else ([.subscribe "notifications" userId], some [.unsubscribe "notifications" userId])

/-- The notification effect of `Header` (Header.jsx 50-55) at the dependency
value `user?.id`: it calls `setupNotificationSubscription` and drops what that
returns, so the effect callback itself returns nothing. -/
def notificationEffect (userId : JsValue) : EffectRun :=
  if userId.truthy then
    { ops := (setupNotificationSubscription userId).1, cleanup := none }
  else
    { ops := [], cleanup := none }

end Header

/-! ## Form validation (AddSchedule.jsx, EditSchedule.jsx) -/

/-- JavaScript `s.length`: the number of UTF-16 code units. -/
def jsLength (s : String) : Nat :=
  (s.data.map (fun c => if c.toNat < 0x10000 then 1 else 2)).sum

/-- The clock and the date parser the validation reads: `parse s` is the time
value of `new Date(s)` (`none` for an invalid date), `today` the time value of
today at local midnight, `oneYearFromNow` and `thirtyDaysAgo` those of the two
dates the validation derives from now. -/
structure Clock where
  parse : String → Option Int
  today : Int
  oneYearFromNow : Int
  thirtyDaysAgo : Int

/-- JavaScript `a < b` on a date and a time value; false for an invalid date. -/
def dateBefore (a : Option Int) (b : Int) : Bool :=
  match a with
  | some t => decide (t < b)
  | none => false

/-- JavaScript `a > b` on a date and a time value; false for an invalid date. -/
def dateAfter (a : Option Int) (b : Int) : Bool :=
  match a with
  | some t => decide (b < t)
  | none => false

namespace AddSchedule

/-- The object `newErrors` of `validateForm`, by field. -/
structure Errors where
  title : Option String
  description : Option String
  date : Option String
  time : Option String
  type : Option String
deriving DecidableEq, Repr

/-- The object `newErrors` that `validateForm` builds (AddSchedule.jsx 20-65). -/
def newErrors (clock : Clock) (formData : FormData) : Errors :=
  { title :=
      if trim formData.title = "" then some "Judul tidak boleh kosong"
      else if jsLength formData.title < 3 then some "Judul minimal 3 karakter"
      else if jsLength formData.title > 100 then some "Judul maksimal 100 karakter"
      else none
    description :=
      if trim formData.description = "" then some "Deskripsi tidak boleh kosong"
      else if jsLength formData.description < 5 then some "Deskripsi minimal 5 karakter"
      else if jsLength formData.description > 500 then some "Deskripsi maksimal 500 karakter"
      else none
    date :=
      if formData.date = "" then some "Tanggal tidak boleh kosong"
      else if dateAfter (clock.parse formData.date) clock.oneYearFromNow then
        some "Tanggal tidak boleh lebih dari 1 tahun ke depan"
      else if dateBefore (clock.parse formData.date) clock.today then
        some "Tanggal tidak boleh di masa lalu"
      else none
    time := if formData.time = "" then some "Waktu tidak boleh kosong" else none
    type :=
      if formData.type = "homework" ∨ formData.type = "exam" then none
      else some "Jenis kegiatan tidak valid" }

/-- Function `validateForm` (AddSchedule.jsx 20-69): whether `newErrors` has no
key. -/
def validateForm (clock : Clock) (formData : FormData) : Bool :=
  let e := newErrors clock formData
  e.title.isNone && e.description.isNone && e.date.isNone && e.time.isNone && e.type.isNone

end AddSchedule

namespace EditSchedule

/-- The object `newErrors` of `validateForm`, by field. -/
structure Errors where
  title : Option String
  description : Option String
  schedule_date : Option String
  schedule_time : Option String
deriving DecidableEq, Repr

/-- The object `newErrors` that `validateForm` builds (EditSchedule.jsx 61-99). -/
def newErrors (clock : Clock) (formData : FormData) : Errors :=
  { title :=
      if trim formData.title = "" then some "Judul tidak boleh kosong"
      else if jsLength formData.title < 3 then some "Judul minimal 3 karakter"
      else if jsLength formData.title > 100 then some "Judul maksimal 100 karakter"
      else none
    description :=
      if trim formData.description = "" then some "Deskripsi tidak boleh kosong"
      else if jsLength formData.description < 5 then some "Deskripsi minimal 5 karakter"
      else if jsLength formData.description > 500 then some "Deskripsi maksimal 500 karakter"
      else none
    schedule_date :=
      if formData.schedule_date = "" then some "Tanggal tidak boleh kosong"
      else if dateBefore (clock.parse formData.schedule_date) clock.thirtyDaysAgo then
        some "Tanggal terlalu jauh di masa lalu"
      else none
    schedule_time :=
      if formData.schedule_time = "" then some "Waktu tidak boleh kosong" else none }

/-- Function `validateForm` (EditSchedule.jsx 61-103): whether `newErrors` has no
key. -/
def validateForm (clock : Clock) (formData : FormData) : Bool :=
  let e := newErrors clock formData
  e.title.isNone && e.description.isNone && e.schedule_date.isNone && e.schedule_time.isNone

end EditSchedule

/-! ## App.jsx -/

namespace App

/-- The state of `App` that `handleNavigateToSettings` reads and writes. -/
structure State where
  currentUser : Option User
  userProfile : Option Profile
  userClass : Option UserClass
  appState : String
deriving DecidableEq, Repr

/-- Function `handleNavigateToSettings` (App.jsx 120-127). -/
def handleNavigateToSettings (s : State) : State :=
  if decide (profileRole s.userProfile = .str "creator") &&
      decide (classCreatorId s.userClass = userId s.currentUser) then
    { s with appState := "classSettings" }
  else s

end App

namespace Header

/-- Constant `isCreator` (Header.jsx 47). -/
def isCreator (user : Option User) (userClass : Option UserClass) : Bool :=
  decide (classCreatorId userClass = userId user)

/-- The notification state of `Header`. -/
structure State where
  notifications : List Row
  unreadCount : Int
deriving DecidableEq, Repr

/-- The test `!n.is_read` on a notification. -/
def isUnread (n : Row) : Bool :=
  !(n.col "is_read").truthy

/-- Number of notifications of a list whose `is_read` flag is false. -/
def unreadIn (l : List Row) : Nat :=
  (l.filter isUnread).length

/-- The object `{ ...n, is_read: true }`. -/
def markRead (n : Row) : Row :=
  { n with cols := JsObject.set n.cols "is_read" (.bool true) }

/-- Function `loadNotifications` (Header.jsx 80-96) for a user with an id, given
what `getUserNotifications(user.id, 10)` resolves to. -/
def loadNotifications (result : Response (List Row)) (s : State) : State :=
  match result.error with
  | some _ => s
  | none =>
    { notifications := result.data.getD [],
      unreadCount :=
        match result.data with
        | some data => ((data.filter isUnread).length : Int)
        | none => 0 }

/-- The callback given to `subscribeToNotifications` (Header.jsx 101-108). -/
def onNotification (payload : Payload) (s : State) : State :=
  if payload.eventType = "INSERT" then
    { notifications := payload.new :: s.notifications.take 9,
      unreadCount := s.unreadCount + 1 }
  else s

/-- Function `handleNotificationClick` (Header.jsx 117-132), given what
`markNotificationRead` resolves to. -/
def handleNotificationClick (result : Response Row) (notificationId : JsValue)
    (s : State) : State :=
  match result.error with
  | some _ => s
  | none =>
    { notifications :=
        s.notifications.map (fun n => if n.id = notificationId then markRead n else n),
      unreadCount := max 0 (s.unreadCount - 1) }

/-- Function `handleMarkAllAsRead` (Header.jsx 134-150), given what
`markAllNotificationsRead` resolves to. -/
def handleMarkAllAsRead (result : Response Row) (user : Option User) (s : State) : State :=
  if !(userId user).truthy || decide (s.unreadCount = 0) then s
  else
    match result.error with
    | some _ => s
    | none => { notifications := s.notifications.map markRead, unreadCount := 0 }

end Header

/-! ## Search results (JoinClass.jsx) and class creation (CreateClass.jsx) -/

/-- A row of the view `classes_with_stats`, as `searchClasses` returns it; the
computed columns may be null. -/
structure ClassStatsRow where
  id : JsValue
  name : String
  description : String
  prodi : String
  creator_name : Option String
  creator_id : JsValue
  member_limit : Nat
  approved_members : Option Nat
  remaining_quota : Option Nat
  is_full : Option Bool
  created_at : String
  is_active : Bool
deriving DecidableEq, Repr

/-- JavaScript `a || b` on an optional number: `a` unless it is null or zero. -/
def numOr (a : Option Nat) (b : Nat) : Nat :=
  match a with
  | some n => if n = 0 then b else n
  | none => b

namespace JoinClass

/-- The entry `handleSearch` builds from one row (JoinClass.jsx 52-65); its
membership status is looked up afterwards. -/
def formatResult (classData : ClassStatsRow) : SearchResult :=
  { id := classData.id
    name := classData.name
    description := classData.description
    prodi := classData.prodi
    creator := orElse classData.creator_name "Unknown"
    creator_id := classData.creator_id
    member_limit := classData.member_limit
    current_members := numOr classData.approved_members 0
    remaining_quota := numOr classData.remaining_quota classData.member_limit
    is_full := classData.is_full.getD false
    created_at := classData.created_at
    status := if classData.is_active then "active" else "inactive"
    membershipStatus := none }

/-- The list `formattedResults` (JoinClass.jsx 52-65): empty when the data is
null. -/
def formattedResults (data : Option (List ClassStatsRow)) : List SearchResult :=
  match data with
  | some rows => rows.map formatResult
  | none => []

/-- The text of the quota indicator of an entry (JoinClass.jsx 417-425). -/
def quotaIndicator (classData : SearchResult) : String :=
  if classData.remaining_quota > 0 then
    "Sisa " ++ toString classData.remaining_quota ++ " slot"
  else "Penuh"

end JoinClass

namespace CreateClass

/-- The `formData` state of `CreateClass`; `member_limit` is `none` when the
input holds no number. -/
structure FormData where
  name : String
  description : String
  member_limit : Option Nat
  prodi : String
deriving DecidableEq, Repr

/-- Function `checkDuplicateName` (CreateClass.jsx 40-65), given what
`searchClasses(className)` resolves to. -/
def checkDuplicateName (search : Response (List ClassStatsRow)) (className : String) : Bool :=
  if trim className = "" then false
  else
    match search.error with
    | some _ => false
    | none =>
      match search.data with
      | some data => data.any (fun cls => toUpperCase cls.name = toUpperCase className)
      | none => false

/-- The object `newErrors` that `validateForm` builds (CreateClass.jsx 68-100), as
the list of its entries in insertion order. -/
def newErrors (search : Response (List ClassStatsRow)) (formData : FormData) :
    List (String × String) :=
  (if trim formData.name = "" then [("name", "Nama kelas tidak boleh kosong")]
    else if jsLength formData.name < 3 then [("name", "Nama kelas minimal 3 karakter")]
    else if jsLength formData.name > 50 then [("name", "Nama kelas maksimal 50 karakter")]
    else if checkDuplicateName search formData.name then
      [("name", "Nama kelas sudah digunakan, pilih nama lain")]
    else []) ++
  (if trim formData.description = "" then [("description", "Deskripsi tidak boleh kosong")]
    else if jsLength formData.description < 10 then
      [("description", "Deskripsi minimal 10 karakter")]
    else if jsLength formData.description > 500 then
      [("description", "Deskripsi maksimal 500 karakter")]
    else []) ++
  (if formData.member_limit.getD 0 = 0 ∨ formData.member_limit.getD 0 < 5 then
      [("member_limit", "Batas anggota minimal 5 orang")]
    else if formData.member_limit.getD 0 > 100 then
      [("member_limit", "Batas anggota maksimal 100 orang")]
    else []) ++
  (if trim formData.prodi = "" then [("prodi", "Program studi harus dipilih")] else [])

/-- Function `validateForm` (CreateClass.jsx 67-104): the value it returns and
the value it leaves in the `error` state. -/
def validateForm (search : Response (List ClassStatsRow)) (formData : FormData) :
    Bool × String :=
  let errors := newErrors search formData
  (errors.isEmpty,
    match errors with
    | entry :: _ => entry.2
    | [] => "")

/-- What `handleCreateClass` did: the rows it handed to the insert of
`createClass`, and the value it left in the `error` state. -/
structure Outcome where
  inserts : List ClassInsert
  error : String
deriving DecidableEq, Repr

/-- Function `handleCreateClass` (CreateClass.jsx 129-169); `checkingDuplicate`
is the state of that name, `create` the answer of the store to the insert. -/
def handleCreateClass (search : Response (List ClassStatsRow))
    (create : ClassInsert → Response Row) (checkingDuplicate : Bool) (user : User)
    (formData : FormData) : Outcome :=
  let (isValid, error) := validateForm search formData
  if !isValid || checkingDuplicate then
    { inserts := [], error := error }
  else
    let classData : ClassData :=
      { name := trim formData.name
        description := trim formData.description
        member_limit := formData.member_limit
        prodi := some (trim formData.prodi)
        creator_id := user.id }
    match (create (createClass classData)).error with
    | some createError =>
      { inserts := [createClass classData],
        error := (formatSupabaseError (some createError)).getD "null" }
    | none => { inserts := [createClass classData], error := "" }

end CreateClass

/-! ## Pagination (ScheduleList.jsx 71-74) -/

/-- JavaScript `l.slice(start, stop)` for indices that are not negative. -/
def jsSlice {α : Type} (l : List α) (start stop : Nat) : List α :=
  (l.take stop).drop start

namespace ScheduleList

/-- Constant `totalPages` (ScheduleList.jsx 72), for `n` filtered schedules. -/
def totalPages (n itemsPerPage : Nat) : Nat :=
  ⌈(n : ℚ) / (itemsPerPage : ℚ)⌉₊

/-- Constant `startIndex` (ScheduleList.jsx 73), for a page number from 1 on. -/
def startIndex (currentPage itemsPerPage : Nat) : Nat :=
  (currentPage - 1) * itemsPerPage

/-- Constant `paginatedSchedules` (ScheduleList.jsx 74). -/
def paginatedSchedules (filteredSchedules : List Row) (currentPage itemsPerPage : Nat) :
    List Row :=
  jsSlice filteredSchedules (startIndex currentPage itemsPerPage)
    (startIndex currentPage itemsPerPage + itemsPerPage)

end ScheduleList

/-! ### Sample clock, store and forms -/

/-- A clock counting days: every date string reads as day 20, today is day 10. -/
def sampleClock : Clock :=
  { parse := fun _ => some 20, today := 10, oneYearFromNow := 375, thirtyDaysAgo := -20 }

/-- A store that answers every helper call without error. -/
def sampleApi : Api :=
  { updateMemberStatus := fun _ _ => { data := none, error := none }
    deleteSchedule := fun _ => { data := none, error := none }
    updateSchedule := fun _ _ => { data := none, error := none }
    createSchedule := fun _ => { data := some rowA, error := none }
    updateClass := fun _ _ => { data := none, error := none } }

/-- A view row of the class R.1.H, full at 30 of 30 members. -/
def fullClassRow : ClassStatsRow :=
  { id := .num 1, name := "R.1.H", description := "Kelas pagi", prodi := "Teknik Informatika",
    creator_name := some "Budi", creator_id := .str "u1", member_limit := 30,
    approved_members := some 30, remaining_quota := some 0, is_full := some true,
    created_at := "2024-09-13T10:00:00Z", is_active := true }

/-- A read and an unread notification. -/
def readNotification : Row := ⟨.num 1, [("is_read", .bool true)]⟩
def unreadNotification : Row := ⟨.num 2, [("is_read", .bool false)]⟩

/-! ## The handlers of App.jsx as a state machine -/

namespace App

/-- What the remote calls of `loadUserData` resolve to: the profile read, the
rows of `getUserClasses` (each with its joined class, which may be null), and
whether either call rejects. -/
structure LoadResult where
  profile : Response Profile
  profileThrows : Bool
  userClasses : Option (List (Option UserClass))
  classesThrows : Bool
deriving DecidableEq, Repr

/-- The state `App` starts in (App.jsx 16-19). -/
def initial : State :=
  { currentUser := none, userProfile := none, userClass := none, appState := "loading" }

/-- Function `loadUserData` (App.jsx 44-83); a null user makes `user.id` throw,
which the `catch` turns into the login view. -/
def loadUserData (user : Option User) (r : LoadResult) (s : State) : State :=
  match user with
  | none => { s with appState := "login" }
  | some user =>
    if r.profileThrows then { s with appState := "login" }
    else
      match r.profile.error with
      | some _ => { s with appState := "roleSelect" }
      | none =>
        match r.profile.data with
        | none => { s with currentUser := some user, userProfile := none, appState := "login" }
        | some profile =>
          if !profile.role.truthy then
            { s with currentUser := some user, userProfile := some profile,
                     appState := "roleSelect" }
          else if r.classesThrows then
            { s with currentUser := some user, userProfile := some profile,
                     appState := "login" }
          else
            match r.userClasses with
            | some (first :: _) =>
              { s with currentUser := some user, userProfile := some profile,
                       userClass := first, appState := "dashboard" }
            | _ =>
              { s with currentUser := some user, userProfile := some profile,
                       appState := if profile.role = .str "creator" then "createClass"
                                   else "joinClass" }

/-- Function `checkUserSession` (App.jsx 27-42), given what `getCurrentUser`
resolves to. -/
def checkUserSession (user : Option User) (error : Bool) (r : LoadResult) (s : State) :
    State :=
  if error || user.isNone then { s with appState := "login" }
  else loadUserData user r s

/-- Function `handleRoleSelect` (App.jsx 89-104); `failed` says that
`updateProfile` returned an error or rejected. Without a current user
`currentUser.id` throws and nothing is set. -/
def handleRoleSelect (role : JsValue) (failed : Bool) (s : State) : State :=
  match s.currentUser with
  | none => s
  | some _ =>
    if failed then s
    else
      { s with
        userProfile := some
          { role := role, full_name := s.userProfile.bind (fun p => p.full_name) },
        appState := if role = .str "creator" then "createClass" else "joinClass" }

/-- Functions `handleClassCreated` and `handleClassJoined` (App.jsx 106-114). -/
def handleClassCreated (newClass : Option UserClass) (s : State) : State :=
  { s with userClass := newClass, appState := "dashboard" }

/-- Function `handleLogout` (App.jsx 145-157); `throws` says that `signOut`
rejected. -/
def handleLogout (throws : Bool) (s : State) : State :=
  if throws then s
  else { currentUser := none, userProfile := none, userClass := none, appState := "login" }

/-- An invocation of a handler of `App`, with what its remote calls resolve to.
`handleClassUpdated` (App.jsx 141-143) is handed to no component and so is
never invoked. -/
inductive Event where
  | checkUserSession (user : Option User) (error : Bool) (r : LoadResult)
  | handleLogin (user : Option User) (r : LoadResult)
  | handleRoleSelect (role : JsValue) (failed : Bool)
  | handleClassCreated (newClass : Option UserClass)
  | handleClassJoined (joinedClass : Option UserClass)
  | handleNavigateToProfile
  | handleNavigateToSettings
  | handleBackFromProfile
  | handleBackFromSettings
  | handleProfileUpdated (updatedProfile : Option Profile)
  | handleLogout (throws : Bool)
deriving DecidableEq, Repr

/-- The user objects an event carries come from the auth provider and have an
id. -/
def Event.wellFormed : Event → Bool
  | .checkUserSession (some user) _ _ => decide (user.id ≠ .undefined)
  | .handleLogin (some user) _ => decide (user.id ≠ .undefined)
  | _ => true

/-- One invocation, run to its end before the next one starts. A handler runs
only while the view it is handed to is on screen (`renderCurrentView`, App.jsx 159-236): `checkUserSession` on mount,
`handleLogin` in the login view (also the default case), `handleRoleSelect` in
the role view, `handleClassCreated` and `handleClassJoined` in the create and
join views, the two navigations and the logout in the dashboard, the two backs
and `handleProfileUpdated` in the profile and settings views. -/
def step (e : Event) (s : State) : State :=
  match e with
  | .checkUserSession user error r =>
    if s.appState = "loading" then checkUserSession user error r s else s
  | .handleLogin user r =>
    if s.appState ∈ ["roleSelect", "createClass", "joinClass", "dashboard", "profile",
        "classSettings"] then s
    else loadUserData user r s
  | .handleRoleSelect role failed =>
    if s.appState = "roleSelect" then handleRoleSelect role failed s else s
  | .handleClassCreated newClass =>
    if s.appState = "createClass" then handleClassCreated newClass s else s
  | .handleClassJoined joinedClass =>
    if s.appState = "joinClass" then handleClassCreated joinedClass s else s
  | .handleNavigateToProfile =>
    if s.appState = "dashboard" then { s with appState := "profile" } else s
  | .handleNavigateToSettings =>
    if s.appState = "dashboard" then handleNavigateToSettings s else s
  | .handleBackFromProfile =>
    if s.appState = "profile" then { s with appState := "dashboard" } else s
  | .handleBackFromSettings =>
    if s.appState = "classSettings" then { s with appState := "dashboard" } else s
  | .handleProfileUpdated updatedProfile =>
    if s.appState = "profile" then { s with userProfile := updatedProfile } else s
  | .handleLogout throws =>
    if s.appState = "dashboard" then handleLogout throws s else s

/-- The state of `App` after a sequence of invocations from its start. -/
def run (events : List Event) : State :=
  events.foldl (fun s e => step e s) initial

/-- The condition of the claim: the profile's role is `creator` and the class on
display was created by the signed-in user. -/
def isClassCreator (s : State) : Prop :=
  ∃ (p : Profile) (u : User) (c : UserClass),
    s.userProfile = some p ∧ p.role = .str "creator" ∧
    s.currentUser = some u ∧ s.userClass = some c ∧ c.creator_id = u.id

/-- What holds of every state `App` reaches: a profile is only held together
with a user, the views behind the login are only shown with a user, and the
user has an id. -/
def Inv (s : State) : Prop :=
  (s.userProfile ≠ none → s.currentUser ≠ none) ∧
  (s.appState ∈ ["createClass", "joinClass", "dashboard", "profile", "classSettings"] →
    s.currentUser ≠ none) ∧
  (∀ u, s.currentUser = some u → u.id ≠ .undefined)

end App

/-! ## Properties of the feed callbacks -/

theorem handler_eq (f : Feed) (p : Payload) (L : List Row) :
    f.handler p L = Dashboard.subscribeToSchedulesCallback p L := by
  cases f <;> rfl

theorem handler_insert (f : Feed) (p : Payload) (L : List Row)
    (hp : p.eventType = "INSERT") : f.handler p L = L ++ [p.new] := by
  rw [handler_eq]
  simp [Dashboard.subscribeToSchedulesCallback, hp]

theorem handler_update (f : Feed) (p : Payload) (L : List Row)
    (hp : p.eventType = "UPDATE") : f.handler p L = L.map (replaceById p.new) := by
  rw [handler_eq]
  have h : ¬ ("UPDATE" = "INSERT") := by decide
  simp [Dashboard.subscribeToSchedulesCallback, hp, h, replaceById]

theorem handler_delete (f : Feed) (p : Payload) (L : List Row)
    (hp : p.eventType = "DELETE") :
    f.handler p L = L.filter (fun e => decide (e.id ≠ p.old.id)) := by
  rw [handler_eq]
  have h1 : ¬ ("DELETE" = "INSERT") := by decide
  have h2 : ¬ ("DELETE" = "UPDATE") := by decide
  simp [Dashboard.subscribeToSchedulesCallback, hp, h1, h2]

theorem replaceById_id (r e : Row) : (replaceById r e).id = e.id := by
  unfold replaceById
  split
  · next h => exact h.symm
  · rfl

theorem replaceAll_id (S : List Payload) (e : Row) : (replaceAll S e).id = e.id := by
  induction S generalizing e with
  | nil => rfl
  | cons p T ih =>
    show (replaceAll T (replaceById p.new e)).id = e.id
    rw [ih, replaceById_id]

theorem replaceAll_of_not_mem (S : List Payload) (e : Row)
    (h : ∀ p ∈ S, p.new.id ≠ e.id) : replaceAll S e = e := by
  induction S generalizing e with
  | nil => rfl
  | cons p T ih =>
    have hp : p.new.id ≠ e.id := h p (List.mem_cons_self _ _)
    have hstep : replaceById p.new e = e := by
      unfold replaceById
      rw [if_neg (fun hc => hp hc.symm)]
    show replaceAll T (replaceById p.new e) = e
    rw [hstep]
    exact ih e (fun q hq => h q (List.mem_cons_of_mem _ hq))

theorem replaceAll_congr (S : List Payload) (e e' : Row) (hid : e.id = e'.id)
    (h : ∃ p ∈ S, p.new.id = e.id) : replaceAll S e = replaceAll S e' := by
  induction S generalizing e e' with
  | nil =>
    obtain ⟨p, hp, _⟩ := h
    cases hp
  | cons p T ih =>
    show replaceAll T (replaceById p.new e) = replaceAll T (replaceById p.new e')
    by_cases hpe : e.id = p.new.id
    · have hpe' : e'.id = p.new.id := hid ▸ hpe
      simp [replaceById, hpe, hpe']
    · have hpe' : ¬ e'.id = p.new.id := hid ▸ hpe
      have h1 : replaceById p.new e = e := by simp [replaceById, hpe]
      have h2 : replaceById p.new e' = e' := by simp [replaceById, hpe']
      rw [h1, h2]
      apply ih e e' hid
      obtain ⟨q, hq, hqe⟩ := h
      rcases List.mem_cons.mp hq with rfl | hqT
      · exact absurd hqe.symm hpe
      · exact ⟨q, hqT, hqe⟩

theorem replaceAll_idem (S : List Payload) (e : Row) :
    replaceAll S (replaceAll S e) = replaceAll S e := by
  by_cases h : ∃ p ∈ S, p.new.id = e.id
  · apply replaceAll_congr S _ _ (replaceAll_id S e)
    obtain ⟨p, hp, hpe⟩ := h
    exact ⟨p, hp, by rw [replaceAll_id]; exact hpe⟩
  · have hno : ∀ p ∈ S, p.new.id ≠ e.id := fun p hp hc => h ⟨p, hp, hc⟩
    rw [replaceAll_of_not_mem S e hno, replaceAll_of_not_mem S e hno]

theorem applyAll_update (f : Feed) (S : List Payload) (L : List Row)
    (hS : ∀ p ∈ S, p.eventType = "UPDATE") :
    f.applyAll S L = L.map (replaceAll S) := by
  induction S generalizing L with
  | nil =>
    have hid : replaceAll [] = id := rfl
    simp [Feed.applyAll, hid]
  | cons p T ih =>
    have hp := hS p (List.mem_cons_self _ _)
    have hT : ∀ q ∈ T, q.eventType = "UPDATE" := fun q hq => hS q (List.mem_cons_of_mem _ hq)
    show Feed.applyAll f T (f.handler p L) = _
    rw [ih _ hT, handler_update f p L hp, List.map_map]
    rfl

theorem applyAll_append (f : Feed) (S T : List Payload) (L : List Row) :
    f.applyAll (S ++ T) L = f.applyAll T (f.applyAll S L) := by
  simp [Feed.applyAll, List.foldl_append]

/-- C1. Replaying a sequence of UPDATE events a second time, in the same order,
leaves the local list as it was after the first pass; in particular one UPDATE
event applied twice gives the same list as applied once. This holds for each of
the three feed callbacks, whether or not the ids of the events occur in the
list. -/
theorem update_replay_idempotent (f : Feed) (L : List Row) (S : List Payload)
    (hS : ∀ p ∈ S, p.eventType = "UPDATE") :
    f.applyAll (S ++ S) L = f.applyAll S L ∧
    ∀ p : Payload, p.eventType = "UPDATE" →
      f.handler p (f.handler p L) = f.handler p L := by
  constructor
  · rw [applyAll_append, applyAll_update f S L hS, applyAll_update f S _ hS, List.map_map]
    apply List.map_congr_left
    intro e _
    exact replaceAll_idem S e
  · intro p h
    rw [handler_update f p _ h, handler_update f p L h, List.map_map]
    apply List.map_congr_left
    intro e _
    exact replaceAll_idem [p] e

theorem update_replay_idempotent_witness :
    (Feed.dashboardSchedules.applyAll
        ([⟨"UPDATE", rowA2, rowA⟩, ⟨"UPDATE", rowA, rowA2⟩] ++
          [⟨"UPDATE", rowA2, rowA⟩, ⟨"UPDATE", rowA, rowA2⟩]) [rowA2, rowB]
      = Feed.dashboardSchedules.applyAll
          [⟨"UPDATE", rowA2, rowA⟩, ⟨"UPDATE", rowA, rowA2⟩] [rowA2, rowB]) ∧
    Feed.dashboardSchedules.applyAll
        [⟨"UPDATE", rowA2, rowA⟩, ⟨"UPDATE", rowA, rowA2⟩] [rowA2, rowB] = [rowA, rowB] :=
  ⟨(update_replay_idempotent .dashboardSchedules [rowA2, rowB]
      [⟨"UPDATE", rowA2, rowA⟩, ⟨"UPDATE", rowA, rowA2⟩] (by decide)).1, by decide⟩

/-- C2. A DELETE event whose old row has id `X` leaves exactly the elements of
the list whose id differs from `X`: the result is the list filtered by
`id ≠ X`, it is a sublist of the list (same relative order, same content), no
element with id `X` remains, and every other element is kept as often as it
occurred. -/
theorem delete_keeps_exactly_the_others (f : Feed) (L : List Row) (p : Payload)
    (hp : p.eventType = "DELETE") :
    f.handler p L = L.filter (fun e => decide (e.id ≠ p.old.id)) ∧
    (f.handler p L).Sublist L ∧
    (∀ e ∈ f.handler p L, e.id ≠ p.old.id) ∧
    (∀ e : Row, e.id ≠ p.old.id → (f.handler p L).count e = L.count e) := by
  rw [handler_delete f p L hp]
  refine ⟨rfl, List.filter_sublist L, ?_, ?_⟩
  · intro e he
    have h := (List.mem_filter.mp he).2
    exact of_decide_eq_true h
  · intro e he
    rw [List.count_filter]
    exact decide_eq_true he

theorem delete_keeps_exactly_the_others_witness :
    Feed.dashboardMembers.handler ⟨"DELETE", noRow, rowA⟩ [rowA, rowB, rowA2, rowC]
      = [rowB, rowC] :=
  ((delete_keeps_exactly_the_others .dashboardMembers [rowA, rowB, rowA2, rowC]
      ⟨"DELETE", noRow, rowA⟩ rfl).1).trans (by decide)

/-- C3, as the claim states it, fails: on a list that holds the id twice, a
DELETE event for that id removes both elements, so the length drops by two. -/
theorem delete_removes_every_duplicate_counterexample :
    (∃ x ∈ [rowA, rowB, rowA], x.id = rowA.id) ∧
    (Feed.dashboardSchedules.handler ⟨"DELETE", noRow, rowA⟩ [rowA, rowB, rowA]).length = 1 ∧
    [rowA, rowB, rowA].length - 1 = 2 := by
  refine ⟨⟨rowA, by decide, rfl⟩, by decide, by decide⟩

/-- C3, amended. A DELETE event for id `X` shortens the list by the number of
its elements with id `X`; on a list that holds exactly one element with id `X`
the result has length `length L - 1`. -/
theorem delete_length (f : Feed) (L : List Row) (p : Payload)
    (hp : p.eventType = "DELETE") :
    (f.handler p L).length + countId p.old.id L = L.length ∧
    (countId p.old.id L = 1 → (f.handler p L).length = L.length - 1) := by
  have hlen : (f.handler p L).length + countId p.old.id L = L.length := by
    rw [handler_delete f p L hp, countId]
    induction L with
    | nil => rfl
    | cons a t ih =>
      by_cases h : a.id = p.old.id
      · simp [List.filter_cons, List.countP_cons, h] at ih ⊢
        omega
      · simp [List.filter_cons, List.countP_cons, h] at ih ⊢
        omega
  exact ⟨hlen, fun h1 => by omega⟩

theorem delete_length_witness :
    countId rowB.id [rowA, rowB, rowC] = 1 ∧
    (Feed.dashboardSchedules.handler ⟨"DELETE", noRow, rowB⟩ [rowA, rowB, rowC]).length
      = [rowA, rowB, rowC].length - 1 :=
  ⟨by decide,
   (delete_length .dashboardSchedules [rowA, rowB, rowC] ⟨"DELETE", noRow, rowB⟩ rfl).2
     (by decide)⟩

/-- C4. An UPDATE event whose new row's id occurs nowhere in the list leaves
the list as it is. -/
theorem update_miss_is_noop (f : Feed) (L : List Row) (p : Payload)
    (hp : p.eventType = "UPDATE") (hmiss : ∀ e ∈ L, e.id ≠ p.new.id) :
    f.handler p L = L := by
  rw [handler_update f p L hp]
  conv_rhs => rw [← List.map_id L]
  apply List.map_congr_left
  intro e he
  simp [replaceById, hmiss e he]

theorem update_miss_is_noop_witness :
    (∀ e ∈ [rowA, rowB], e.id ≠ rowC.id) ∧
    Feed.hookSchedules.handler ⟨"UPDATE", rowC, rowC⟩ [rowA, rowB] = [rowA, rowB] :=
  ⟨by decide,
   update_miss_is_noop .hookSchedules [rowA, rowB] ⟨"UPDATE", rowC, rowC⟩ rfl (by decide)⟩

/-- C5. An UPDATE event with new row `r` keeps the length of the list and, at
every position, puts `r` where the element's id equals `r.id` and leaves the
element as it is elsewhere. -/
theorem update_replaces_by_id (f : Feed) (L : List Row) (p : Payload)
    (hp : p.eventType = "UPDATE") :
    (f.handler p L).length = L.length ∧
    ∀ (i : Nat) (hi : i < L.length),
      (f.handler p L)[i]? = some (if L[i].id = p.new.id then p.new else L[i]) := by
  rw [handler_update f p L hp]
  refine ⟨List.length_map _ _, ?_⟩
  intro i hi
  rw [List.getElem?_map, List.getElem?_eq_getElem hi]
  rfl

theorem update_replaces_by_id_witness :
    (Feed.dashboardSchedules.handler ⟨"UPDATE", rowA2, rowA⟩ [rowB, rowA, rowC])[1]?
      = some rowA2 :=
  ((update_replaces_by_id .dashboardSchedules [rowB, rowA, rowC]
      ⟨"UPDATE", rowA2, rowA⟩ rfl).2 1 (by decide)).trans (by decide)

/-- C6. The optimistic append of a created row `r` and the feed's INSERT event
for `r`, in either order, turn the list `L` into `L` followed by `r` twice; when
`L` holds no element with `r`'s id, the result holds two. -/
theorem optimistic_append_duplicates (L : List Row) (r old : Row) :
    Dashboard.subscribeToSchedulesCallback ⟨"INSERT", r, old⟩
        (Dashboard.onScheduleAdded r L) = L ++ [r, r] ∧
    Dashboard.onScheduleAdded r
        (Dashboard.subscribeToSchedulesCallback ⟨"INSERT", r, old⟩ L) = L ++ [r, r] ∧
    ((∀ e ∈ L, e.id ≠ r.id) →
      countId r.id (Dashboard.subscribeToSchedulesCallback ⟨"INSERT", r, old⟩
        (Dashboard.onScheduleAdded r L)) = 2) := by
  have h1 : Dashboard.subscribeToSchedulesCallback ⟨"INSERT", r, old⟩
      (Dashboard.onScheduleAdded r L) = L ++ [r, r] := by
    simp [Dashboard.subscribeToSchedulesCallback, Dashboard.onScheduleAdded]
  refine ⟨h1, ?_, ?_⟩
  · simp [Dashboard.subscribeToSchedulesCallback, Dashboard.onScheduleAdded]
  · intro hL
    rw [h1, countId, List.countP_append]
    have h0 : List.countP (fun e => decide (e.id = r.id)) L = 0 := by
      rw [List.countP_eq_zero]
      intro e he
      simpa using hL e he
    rw [h0]
    simp [List.countP_cons]

theorem optimistic_append_duplicates_witness :
    (∀ e ∈ [rowB, rowC], e.id ≠ rowA.id) ∧
    countId rowA.id (Dashboard.subscribeToSchedulesCallback ⟨"INSERT", rowA, noRow⟩
        (Dashboard.onScheduleAdded rowA [rowB, rowC])) = 2 :=
  ⟨by decide, (optimistic_append_duplicates [rowB, rowC] rowA noRow).2.2 (by decide)⟩

/-! ## Properties of `requestJoinClass` -/

/-- C7. When the capacity read of a class returns `member_limit = N` and
`approved_members = N` (with the `is_full` column the view derives from them),
`requestJoinClass` returns `data = null` with an error whose code is
`CLASS_FULL`, and the only request it issued is the capacity read: no insert
into `class_members`. -/
theorem requestJoinClass_full (db : Remote) (classId userId : JsValue) (N : Nat)
    (stats : ClassStats)
    (hread : db.classesWithStats classId = { data := some stats, error := none })
    (hlimit : stats.member_limit = N) (happroved : stats.approved_members = N)
    (hview : stats.is_full =
      classes_with_stats_is_full stats.member_limit stats.approved_members) :
    requestJoinClass db classId userId =
      ({ data := none,
         error := some
          { message := some ("Kelas sudah penuh. Batas maksimal " ++ toString N ++ " anggota.")
            details := none
            code := some "CLASS_FULL" } },
       [RemoteCall.selectClassStats classId]) ∧
    ∀ row, RemoteCall.insertClassMember row ∉ (requestJoinClass db classId userId).2 := by
  have hfull : stats.is_full = true := by
    rw [hview, hlimit, happroved]
    simp [classes_with_stats_is_full]
  have hres : requestJoinClass db classId userId =
      ({ data := none,
         error := some
          { message := some ("Kelas sudah penuh. Batas maksimal " ++ toString N ++ " anggota.")
            details := none
            code := some "CLASS_FULL" } },
       [RemoteCall.selectClassStats classId]) := by
    simp [requestJoinClass, checkClassAvailability, hread, hfull, hlimit]
  refine ⟨hres, ?_⟩
  intro row hrow
  rw [hres] at hrow
  simp at hrow

theorem requestJoinClass_full_witness :
    (requestJoinClass
        { classesWithStats := fun _ => { data := some ⟨30, 30, 0, true⟩, error := none }
          insertClassMember := fun _ => { data := some rowA, error := none } }
        (.num 7) (.str "u1")).1.error
      = some { message := some "Kelas sudah penuh. Batas maksimal 30 anggota."
               details := none
               code := some "CLASS_FULL" } :=
  (congrArg (fun r => r.1.error)
    (requestJoinClass_full
      { classesWithStats := fun _ => { data := some ⟨30, 30, 0, true⟩, error := none }
        insertClassMember := fun _ => { data := some rowA, error := none } }
      (.num 7) (.str "u1") 30 ⟨30, 30, 0, true⟩ rfl rfl rfl (by decide)).1).trans (by decide)

/-- C8. `requestJoinClass` issues the `class_members` insert exactly when the
capacity read returned no error and no set `is_full` flag; the insert is then
issued once, after the read, with the row `{class_id, user_id, status:
'pending'}`, and its response is the result. When the capacity read fails, the
result is `{data: null, error: that error}` and nothing is inserted. -/
theorem requestJoinClass_insert_iff (db : Remote) (classId userId : JsValue) :
    ((∃ row, RemoteCall.insertClassMember row ∈ (requestJoinClass db classId userId).2) ↔
      ((db.classesWithStats classId).error = none ∧
        ∀ s, (db.classesWithStats classId).data = some s → s.is_full = false)) ∧
    (∀ row, RemoteCall.insertClassMember row ∈ (requestJoinClass db classId userId).2 →
      row = { class_id := classId, user_id := userId, status := "pending" } ∧
      requestJoinClass db classId userId =
        (db.insertClassMember row,
          [RemoteCall.selectClassStats classId, RemoteCall.insertClassMember row])) ∧
    (∀ e, (db.classesWithStats classId).error = some e →
      requestJoinClass db classId userId =
        ({ data := none, error := some e }, [RemoteCall.selectClassStats classId])) := by
  cases herr : (db.classesWithStats classId).error with
  | some e =>
    simp [requestJoinClass, checkClassAvailability, herr]
  | none =>
    cases hdata : (db.classesWithStats classId).data with
    | none =>
      simp [requestJoinClass, checkClassAvailability, herr, hdata]
    | some s =>
      cases hfull : s.is_full with
      | true =>
        simp [requestJoinClass, checkClassAvailability, herr, hdata, hfull]
      | false =>
        simp [requestJoinClass, checkClassAvailability, herr, hdata, hfull]

theorem requestJoinClass_insert_iff_witness :
    requestJoinClass
        { classesWithStats := fun _ =>
            { data := none, error := some ⟨some "permission denied", none, none⟩ }
          insertClassMember := fun _ => { data := some rowA, error := none } }
        (.num 7) (.str "u1")
      = ({ data := none, error := some ⟨some "permission denied", none, none⟩ },
          [RemoteCall.selectClassStats (.num 7)]) :=
  (requestJoinClass_insert_iff
      { classesWithStats := fun _ =>
          { data := none, error := some ⟨some "permission denied", none, none⟩ }
        insertClassMember := fun _ => { data := some rowA, error := none } }
      (.num 7) (.str "u1")).2.2 ⟨some "permission denied", none, none⟩ rfl

/-! ## Properties of `formatSupabaseError` -/

theorem includes_iff (s key : String) : includes s key = true ↔ key.data <:+: s.data := by
  unfold includes
  rw [List.any_eq_true, List.infix_iff_prefix_suffix]
  constructor
  · rintro ⟨t, ht, hpre⟩
    exact ⟨t, List.isPrefixOf_iff_prefix.mp hpre, (List.mem_tails _ _).mp ht⟩
  · rintro ⟨t, hpre, hsuf⟩
    exact ⟨t, (List.mem_tails _ _).mpr hsuf, List.isPrefixOf_iff_prefix.mpr hpre⟩

theorem includes_toLowerCase (s key : String) (hkey : key.data.map Char.toLower = key.data)
    (h : includes s key = true) : includes (toLowerCase s) key = true := by
  rw [includes_iff] at h ⊢
  have hmap := List.IsInfix.map Char.toLower h
  rw [hkey] at hmap
  exact hmap

theorem orElse_some (m b : String) (hm : m ≠ "") : orElse (some m) b = m := by
  simp [orElse, hm]

/-- C9. An error whose message contains "duplicate key value violates unique
constraint" is formatted as exactly "Data sudah ada", which is not the raw
message, whatever else the message contains. -/
theorem formatSupabaseError_duplicate_key (error : SupabaseError) (m : String)
    (hm : error.message = some m)
    (hsub : includes m "duplicate key value violates unique constraint" = true) :
    formatSupabaseError (some error) = some "Data sudah ada" ∧
    formatSupabaseError (some error) ≠ some m := by
  have hlen : 46 ≤ m.data.length := by
    have h := ((includes_iff _ _).mp hsub).length_le
    simpa using h
  have hne : m ≠ "" := by
    intro h
    rw [h] at hlen
    simp at hlen
  have hlow : includes (toLowerCase m) "duplicate key value violates unique constraint"
      = true := includes_toLowerCase m _ (by decide) hsub
  have hres : formatSupabaseError (some error) = some "Data sudah ada" := by
    have hfind : errorMappings.find?
        (fun entry : String × String => includes (toLowerCase m) entry.1)
        = some ("duplicate key value violates unique constraint", "Data sudah ada") :=
      List.find?_cons_of_pos _ hlow
    simp only [formatSupabaseError, hm, orElse_some m _ hne, hfind]
  refine ⟨hres, ?_⟩
  rw [hres]
  intro h
  have h2 : m = "Data sudah ada" := (Option.some.inj h).symm
  rw [h2] at hlen
  simp at hlen

theorem formatSupabaseError_duplicate_key_witness :
    formatSupabaseError (some
        { message := some
            "ERROR: duplicate key value violates unique constraint; permission denied"
          details := none
          code := some "23505" })
      = some "Data sudah ada" :=
  (formatSupabaseError_duplicate_key _ _ rfl (by decide)).1

theorem find_errorMappings_none (m : String)
    (hnone : ∀ entry ∈ errorMappings, includes (toLowerCase m) entry.1 = false) :
    errorMappings.find? (fun entry : String × String => includes (toLowerCase m) entry.1)
      = none := by
  rw [List.find?_eq_none]
  intro entry hentry
  rw [hnone entry hentry]
  decide

theorem formatSupabaseError_of_message (error : SupabaseError) (m : String)
    (hmsg : orElse error.message (orElse error.details "Terjadi kesalahan") = m)
    (hnone : ∀ entry ∈ errorMappings, includes (toLowerCase m) entry.1 = false) :
    formatSupabaseError (some error) = some m := by
  simp only [formatSupabaseError, hmsg, find_errorMappings_none m hnone]

/-- C10. An error with a non-empty message whose lower-cased form contains none
of the five mapped substrings is formatted as the raw message. When the message
is absent or empty the details take the place of the message (and are returned
as they are when non-empty and free of the mapped substrings); when the details
are absent or empty too the result is "Terjadi kesalahan". A null error gives
null. -/
theorem formatSupabaseError_fallback :
    (∀ (error : SupabaseError) (m : String), error.message = some m → m ≠ "" →
      (∀ entry ∈ errorMappings, includes (toLowerCase m) entry.1 = false) →
      formatSupabaseError (some error) = some m) ∧
    (∀ error : SupabaseError, (error.message = none ∨ error.message = some "") →
      formatSupabaseError (some error) =
        formatSupabaseError
          (some { message := error.details, details := none, code := error.code })) ∧
    (∀ (error : SupabaseError) (d : String),
      (error.message = none ∨ error.message = some "") → error.details = some d → d ≠ "" →
      (∀ entry ∈ errorMappings, includes (toLowerCase d) entry.1 = false) →
      formatSupabaseError (some error) = some d) ∧
    (∀ error : SupabaseError, (error.message = none ∨ error.message = some "") →
      (error.details = none ∨ error.details = some "") →
      formatSupabaseError (some error) = some "Terjadi kesalahan") ∧
    formatSupabaseError none = none := by
  refine ⟨?_, ?_, ?_, ?_, rfl⟩
  · intro error m hm hne hnone
    apply formatSupabaseError_of_message error m _ hnone
    rw [hm, orElse_some m _ hne]
  · intro error hmsg
    have h : orElse error.message (orElse error.details "Terjadi kesalahan")
        = orElse error.details (orElse none "Terjadi kesalahan") := by
      rcases hmsg with h | h <;> simp [h, orElse]
    simp only [formatSupabaseError, h]
  · intro error d hmsg hd hne hnone
    apply formatSupabaseError_of_message error d _ hnone
    rcases hmsg with h | h <;> simp [h, hd, orElse, hne]
  · intro error hmsg hdet
    apply formatSupabaseError_of_message error "Terjadi kesalahan" _ (by decide)
    rcases hmsg with h | h <;> rcases hdet with h2 | h2 <;> simp [h, h2, orElse]

theorem formatSupabaseError_fallback_witness :
    formatSupabaseError (some ⟨some "JWT expired", none, some "PGRST301"⟩)
      = some "JWT expired" ∧
    formatSupabaseError (some ⟨some "", some "Row not found", none⟩)
      = some "Row not found" ∧
    formatSupabaseError (some ⟨none, some "", none⟩) = some "Terjadi kesalahan" :=
  ⟨formatSupabaseError_fallback.1 _ "JWT expired" rfl (by decide) (by decide),
   formatSupabaseError_fallback.2.2.1 _ "Row not found" (Or.inr rfl) rfl (by decide)
     (by decide),
   formatSupabaseError_fallback.2.2.2.1 _ (Or.inl rfl) (Or.inr rfl)⟩

/-! ## Role gates and offline gates of the components -/

theorem memberCard_nil_of_not_canManage (p : MemberManagement.Props)
    (h : MemberManagement.canManageMembers p = false) (member : Row) (status : String)
    (showActions : Bool) : MemberManagement.MemberCard p member status showActions = [] := by
  simp [MemberManagement.MemberCard, h]

/-- C11. When the user's id differs from the class's `creator_id`,
`canManageMembers` is false and `MemberManagement` renders no approve and no
reject button, in any card, tab or layout, whatever the profile's role. -/
theorem canManageMembers_requires_creator_id (p : MemberManagement.Props)
    (h : userId p.user ≠ classCreatorId p.userClass) :
    MemberManagement.canManageMembers p = false ∧
    (∀ (member : Row) (status : String) (showActions : Bool),
      MemberManagement.MemberCard p member status showActions = []) ∧
    MemberManagement.controls p = [] := by
  have hcan : MemberManagement.canManageMembers p = false := by
    simp [MemberManagement.canManageMembers, h]
  refine ⟨hcan, fun member status showActions =>
    memberCard_nil_of_not_canManage p hcan member status showActions, ?_⟩
  simp [MemberManagement.controls, memberCard_nil_of_not_canManage p hcan, hcan]

theorem canManageMembers_requires_creator_id_witness :
    MemberManagement.controls
      { user := some ⟨.str "u2", none⟩
        profile := some ⟨.str "creator", none⟩
        userClass := some ⟨.num 1, .str "u1", "R.1.H"⟩
        members := [⟨.num 5, [("status", .str "pending")]⟩]
        isOnline := true
        activeTab := "pending"
        processingMembers := []
        expandedMembers := [] } = [] :=
  (canManageMembers_requires_creator_id _ (by decide)).2.2

/-- C12 at the failing input: a user whose profile has the role `creator` and
whose id differs from the class's `creator_id` gets the enabled add-schedule
buttons of the Dashboard and an enabled edit and delete button on every
schedule card. -/
theorem schedule_gate_ignores_creator_id :
    userId (some ⟨.str "u2", none⟩) ≠ classCreatorId (some ⟨.num 1, .str "u1", "R.1.H"⟩) ∧
    Dashboard.addScheduleControls
      { user := some ⟨.str "u2", none⟩
        profile := some ⟨.str "creator", none⟩
        userClass := some ⟨.num 1, .str "u1", "R.1.H"⟩
        loading := false
        isOnline := true
        activeTab := "schedule" }
      = [⟨.addSchedule, false⟩, ⟨.addSchedule, false⟩] ∧
    ScheduleList.controls
      { schedules := [rowB]
        shown := [rowB]
        user := some ⟨.str "u2", none⟩
        profile := some ⟨.str "creator", none⟩
        userClass := some ⟨.num 1, .str "u1", "R.1.H"⟩
        isOnline := true
        deleting := .null }
      = [⟨.editSchedule (.num 2), false⟩, ⟨.deleteSchedule (.num 2), false⟩,
         ⟨.editSchedule (.num 2), false⟩, ⟨.deleteSchedule (.num 2), false⟩] := by
  refine ⟨by decide, by decide, by decide⟩

/-- C13. While `isOnline` is false, `handleDelete`, the submit handler of
`EditSchedule`, `handleApproveMember` and `handleRejectMember` return without a
call of a mutation helper; `ScheduleList` renders no edit and no delete button,
every approve and reject button `MemberManagement` renders is disabled, and the
submit button of `EditSchedule` is disabled. -/
theorem offline_blocks_mutations (api : Api) :
    (∀ (confirmed : Bool) (scheduleId : JsValue),
      (ScheduleList.handleDelete api false confirmed scheduleId).calls = []) ∧
    (∀ (valid : Bool) (schedule : Row) (formData : EditSchedule.FormData),
      (EditSchedule.handleSubmit api false valid schedule formData).calls = []) ∧
    (∀ memberId : JsValue,
      (MemberManagement.handleApproveMember api false memberId).calls = []) ∧
    (∀ (confirmed : Bool) (error₀ : Option String) (memberId : JsValue),
      (MemberManagement.handleRejectMember api false confirmed error₀ memberId).calls = []) ∧
    (∀ p : ScheduleList.Props, p.isOnline = false → ScheduleList.controls p = []) ∧
    (∀ p : MemberManagement.Props, p.isOnline = false →
      ∀ c ∈ MemberManagement.controls p, c.disabled = true) ∧
    (∀ isLoading hasChanges : Bool,
      EditSchedule.submitDisabled isLoading hasChanges false = true) := by
  refine ⟨fun _ _ => rfl, fun _ _ _ => rfl, fun _ => rfl, fun _ _ _ => rfl, ?_, ?_, ?_⟩
  · intro p hp
    simp [ScheduleList.controls, ScheduleList.cardControls, hp]
  · intro p hp c hc
    have hcard : ∀ (member : Row) (status : String) (showActions : Bool),
        ∀ c ∈ MemberManagement.MemberCard p member status showActions, c.disabled = true := by
      intro member status showActions c hc
      simp only [MemberManagement.MemberCard, hp, List.mem_append] at hc
      rcases hc with hc | hc
      · split at hc
        · simp at hc
          rcases hc with rfl | rfl <;> simp
        · simp at hc
      · split at hc
        · simp at hc
          rcases hc with rfl | rfl <;> simp
        · simp at hc
    simp only [MemberManagement.controls, List.mem_append] at hc
    rcases hc with (hc | hc) | hc
    · split at hc
      · obtain ⟨m, _, hm⟩ := List.mem_flatMap.mp hc
        exact hcard _ _ _ c hm
      · simp at hc
    · split at hc
      · obtain ⟨m, _, hm⟩ := List.mem_flatMap.mp hc
        exact hcard _ _ _ c hm
      · simp at hc
    · split at hc
      · obtain ⟨m, _, hm⟩ := List.mem_flatMap.mp hc
        exact hcard _ _ _ c hm
      · simp at hc
  · intro isLoading hasChanges
    simp [EditSchedule.submitDisabled]

theorem offline_blocks_mutations_witness :
    MemberManagement.controls
      { user := some ⟨.str "u1", none⟩
        profile := some ⟨.str "creator", none⟩
        userClass := some ⟨.num 1, .str "u1", "R.1.H"⟩
        members := [⟨.num 5, [("status", .str "pending")]⟩]
        isOnline := false
        activeTab := "pending"
        processingMembers := []
        expandedMembers := [] }
      = [⟨.rejectMember (.num 5), true⟩, ⟨.approveMember (.num 5), true⟩,
         ⟨.rejectMember (.num 5), true⟩, ⟨.approveMember (.num 5), true⟩] ∧
    (∀ c ∈ MemberManagement.controls
      { user := some ⟨.str "u1", none⟩
        profile := some ⟨.str "creator", none⟩
        userClass := some ⟨.num 1, .str "u1", "R.1.H"⟩
        members := [⟨.num 5, [("status", .str "pending")]⟩]
        isOnline := false
        activeTab := "pending"
        processingMembers := []
        expandedMembers := [] }, c.disabled = true) :=
  ⟨by decide,
   (offline_blocks_mutations
      ⟨fun _ _ => ⟨none, none⟩, fun _ => ⟨none, none⟩, fun _ _ => ⟨none, none⟩,
        fun _ => ⟨none, none⟩, fun _ _ => ⟨none, none⟩⟩).2.2.2.2.2.1 _ rfl⟩

/-- C14 at the failing input: with `isOnline` false, the Dashboard still renders
both add-schedule buttons enabled for a profile with the role `creator`, and
submitting a valid `AddSchedule` form still calls `createSchedule`. -/
theorem add_schedule_not_gated_offline (api : Api) (apiError₀ : Option String)
    (formData : AddSchedule.FormData) :
    Dashboard.addScheduleControls
      { user := some ⟨.str "u1", none⟩
        profile := some ⟨.str "creator", none⟩
        userClass := some ⟨.num 1, .str "u1", "R.1.H"⟩
        loading := false
        isOnline := false
        activeTab := "schedule" }
      = [⟨.addSchedule, false⟩, ⟨.addSchedule, false⟩] ∧
    (AddSchedule.handleSubmit api true apiError₀ ⟨.str "u1", none⟩
        ⟨.num 1, .str "u1", "R.1.H"⟩ formData).calls
      = [.createSchedule
          (AddSchedule.scheduleData ⟨.str "u1", none⟩ ⟨.num 1, .str "u1", "R.1.H"⟩ formData)] := by
  refine ⟨by decide, ?_⟩
  simp only [AddSchedule.handleSubmit]
  cases (api.createSchedule
    (AddSchedule.scheduleData ⟨.str "u1", none⟩ ⟨.num 1, .str "u1", "R.1.H"⟩ formData)).error
    <;> simp


/-! ## Properties of the join flow (JoinClass.jsx) -/

/-- C15. `getJoinButtonState` returns an enabled button exactly when the entry is
not the one being joined, its membership status is none of `approved`,
`pending`, `rejected`, it is not full and its status is `active`; the enabled
button reads "Gabung". An entry with status `rejected` is always disabled, and
`handleJoinRequest` on an entry with one of the three statuses sends nothing to
the store and leaves the search results as they are. -/
theorem getJoinButtonState_enabled_iff (joiningClassId : JsValue)
    (classData : JoinClass.SearchResult) :
    ((JoinClass.getJoinButtonState joiningClassId classData).disabled = false ↔
      (joiningClassId ≠ classData.id ∧
        classData.membershipStatus ≠ some "approved" ∧
        classData.membershipStatus ≠ some "pending" ∧
        classData.membershipStatus ≠ some "rejected" ∧
        classData.is_full = false ∧ classData.status = "active")) ∧
    ((JoinClass.getJoinButtonState joiningClassId classData).disabled = false →
      (JoinClass.getJoinButtonState joiningClassId classData).text = "Gabung") ∧
    (classData.membershipStatus = some "rejected" →
      (JoinClass.getJoinButtonState joiningClassId classData).disabled = true) ∧
    (∀ (db : Remote) (confirmed : Bool) (s : JoinClass.State),
      (classData.membershipStatus = some "approved" ∨
        classData.membershipStatus = some "pending" ∨
        classData.membershipStatus = some "rejected") →
      (JoinClass.handleJoinRequest db confirmed classData s).2 = [] ∧
      (JoinClass.handleJoinRequest db confirmed classData s).1.searchResults
        = s.searchResults) := by
  refine ⟨?_, ?_, ?_, ?_⟩
  · unfold JoinClass.getJoinButtonState
    by_cases h1 : joiningClassId = classData.id
    · simp [h1]
    by_cases h2 : classData.membershipStatus = some "approved"
    · simp [h1, h2]
    by_cases h3 : classData.membershipStatus = some "pending"
    · simp [h1, h2, h3]
    by_cases h4 : classData.membershipStatus = some "rejected"
    · simp [h1, h2, h3, h4]
    by_cases h5 : classData.is_full = true
    · simp [h1, h2, h3, h4, h5]
    by_cases h6 : classData.status = "active"
    · simp [h1, h2, h3, h4, h5, h6]
    · simp [h1, h2, h3, h4, h5, h6]
  · unfold JoinClass.getJoinButtonState
    intro h
    split at h <;> try (simp at h)
    split at h <;> try (simp at h)
    split at h <;> try (simp at h)
    split at h <;> try (simp at h)
    split at h <;> try (simp at h)
    split at h <;> try (simp at h)
    simp [*]
  · intro h
    unfold JoinClass.getJoinButtonState
    by_cases h1 : joiningClassId = classData.id
    · simp [h1]
    · simp [h1, h]
  · intro db confirmed s h
    unfold JoinClass.handleJoinRequest
    cases hu : s.currentUser with
    | none => simp
    | some u =>
      rcases h with h | h | h
      · simp [h]
      · simp [h]
      · simp [h]

theorem getJoinButtonState_enabled_iff_witness :
    (JoinClass.getJoinButtonState .null
        ⟨.num 1, "R.1.H", "", "TI", "Budi", .str "u1", 30, 12, 18, false, "", "active",
          some "rejected"⟩).disabled = true ∧
    (JoinClass.getJoinButtonState .null
        ⟨.num 1, "R.1.H", "", "TI", "Budi", .str "u1", 30, 12, 18, false, "", "active",
          none⟩).text = "Gabung" :=
  ⟨(getJoinButtonState_enabled_iff .null _).2.2.1 rfl,
   (getJoinButtonState_enabled_iff .null _).2.1 (by decide)⟩

/-- C16. When `handleJoinRequest` reaches `requestJoinClass` for the class `c`
and the request succeeds, the new search results have the same length and order,
every entry with id `c` is the old entry with `membershipStatus` set to
`pending`, every other entry is the old entry, `joiningClassId` is reset to null
and `getJoinButtonState` on an entry with id `c` gives the disabled button
"Menunggu Persetujuan" (class ids are keys, never null). When the request
returns an error the search results are unchanged. -/
theorem handleJoinRequest_marks_pending (db : Remote) (classData : JoinClass.SearchResult)
    (s : JoinClass.State) (u : User)
    (huser : s.currentUser = some u)
    (happroved : classData.membershipStatus ≠ some "approved")
    (hpending : classData.membershipStatus ≠ some "pending")
    (hrejected : classData.membershipStatus ≠ some "rejected")
    (hfull : classData.is_full = false) :
    ((requestJoinClass db classData.id u.id).1.error = none →
      (JoinClass.handleJoinRequest db true classData s).1.searchResults.length
        = s.searchResults.length ∧
      (∀ (i : Nat) (hi : i < s.searchResults.length),
        (JoinClass.handleJoinRequest db true classData s).1.searchResults[i]? =
          some (if s.searchResults[i].id = classData.id
            then { s.searchResults[i] with membershipStatus := some "pending" }
            else s.searchResults[i])) ∧
      (JoinClass.handleJoinRequest db true classData s).1.joiningClassId = .null ∧
      (classData.id ≠ .null →
        ∀ e ∈ (JoinClass.handleJoinRequest db true classData s).1.searchResults,
          e.id = classData.id →
          (JoinClass.getJoinButtonState
              (JoinClass.handleJoinRequest db true classData s).1.joiningClassId e).text
            = "Menunggu Persetujuan" ∧
          (JoinClass.getJoinButtonState
              (JoinClass.handleJoinRequest db true classData s).1.joiningClassId e).disabled
            = true)) ∧
    (∀ joinError, (requestJoinClass db classData.id u.id).1.error = some joinError →
      (JoinClass.handleJoinRequest db true classData s).1.searchResults = s.searchResults ∧
      (JoinClass.handleJoinRequest db true classData s).1.error
        = some (JoinClass.joinErrorMessage joinError)) := by
  constructor
  · intro hok
    have hstate : (JoinClass.handleJoinRequest db true classData s).1 =
        { s with
          searchResults := s.searchResults.map (fun result =>
            if result.id = classData.id then
              { result with membershipStatus := some "pending" }
            else result),
          error := none,
          joiningClassId := .null } := by
      simp [JoinClass.handleJoinRequest, huser, happroved, hpending, hrejected, hfull, hok]
    rw [hstate]
    refine ⟨by simp, ?_, rfl, ?_⟩
    · intro i hi
      simp [List.getElem?_map, List.getElem?_eq_getElem hi]
    · intro hnull e he hid
      simp only [List.mem_map] at he
      obtain ⟨r, _, hr⟩ := he
      have hrid : r.id = classData.id := by
        by_cases hc : r.id = classData.id
        · exact hc
        · rw [if_neg hc] at hr
          rw [hr] at hc
          exact absurd hid hc
      rw [if_pos hrid] at hr
      have hms : e.membershipStatus = some "pending" := by rw [← hr]
      have hne : JsValue.null ≠ e.id := by
        rw [hid]
        exact fun h => hnull h.symm
      simp [JoinClass.getJoinButtonState, hne, hms]
  · intro joinError herr
    simp [JoinClass.handleJoinRequest, huser, happroved, hpending, hrejected, hfull, herr]

theorem handleJoinRequest_marks_pending_witness :
    (JoinClass.handleJoinRequest
        { classesWithStats := fun _ => { data := some ⟨30, 12, 18, false⟩, error := none }
          insertClassMember := fun _ => { data := some rowA, error := none } }
        true
        ⟨.num 1, "R.1.H", "", "TI", "Budi", .str "u1", 30, 12, 18, false, "", "active", none⟩
        { searchResults :=
            [⟨.num 1, "R.1.H", "", "TI", "Budi", .str "u1", 30, 12, 18, false, "", "active",
              none⟩,
             ⟨.num 2, "R.2.H", "", "TI", "Sari", .str "u3", 30, 30, 0, true, "", "active",
              none⟩]
          error := none
          joiningClassId := .null
          currentUser := some ⟨.str "u9", none⟩ }).1.searchResults[0]?
      = some ⟨.num 1, "R.1.H", "", "TI", "Budi", .str "u1", 30, 12, 18, false, "", "active",
          some "pending"⟩ :=
  (((handleJoinRequest_marks_pending
      { classesWithStats := fun _ => { data := some ⟨30, 12, 18, false⟩, error := none }
        insertClassMember := fun _ => { data := some rowA, error := none } }
      ⟨.num 1, "R.1.H", "", "TI", "Budi", .str "u1", 30, 12, 18, false, "", "active", none⟩
      { searchResults :=
          [⟨.num 1, "R.1.H", "", "TI", "Budi", .str "u1", 30, 12, 18, false, "", "active",
            none⟩,
           ⟨.num 2, "R.2.H", "", "TI", "Sari", .str "u3", 30, 30, 0, true, "", "active",
            none⟩]
        error := none
        joiningClassId := .null
        currentUser := some ⟨.str "u9", none⟩ }
      ⟨.str "u9", none⟩ rfl (by decide) (by decide) (by decide) rfl).1 (by decide)).2.1 0
        (by decide)).trans (by decide)


/-! ## Objects: reads after writes -/

theorem prop_nil (k : String) : JsObject.prop [] k = .undefined := rfl

theorem prop_cons (a : String × JsValue) (t : JsObject) (k : String) :
    JsObject.prop (a :: t) k = if a.1 = k then a.2 else JsObject.prop t k := by
  unfold JsObject.prop
  by_cases h : a.1 = k
  · simp [List.find?_cons, h]
  · simp [List.find?_cons, h]

theorem prop_map_ne (l : JsObject) (k k' : String) (v : JsValue) (h : k' ≠ k) :
    JsObject.prop (l.map (fun kv => if kv.1 = k then (k, v) else kv)) k'
      = JsObject.prop l k' := by
  induction l with
  | nil => rfl
  | cons a t ih =>
    rw [List.map_cons, prop_cons, prop_cons, ih]
    by_cases hak : a.1 = k
    · have h1 : ¬ k = k' := fun hc => h hc.symm
      have h2 : ¬ a.1 = k' := fun hc => h (hc.symm.trans hak)
      simp [hak, h1, h2]
    · simp [hak]

theorem prop_append_ne (l : JsObject) (k k' : String) (v : JsValue) (h : k' ≠ k) :
    JsObject.prop (l ++ [(k, v)]) k' = JsObject.prop l k' := by
  induction l with
  | nil =>
    have h1 : ¬ k = k' := fun hc => h hc.symm
    simp [prop_cons, prop_nil, h1]
  | cons a t ih =>
    rw [List.cons_append, prop_cons, prop_cons, ih]

theorem prop_set_ne (o : JsObject) (k k' : String) (v : JsValue) (h : k' ≠ k) :
    (o.set k v).prop k' = o.prop k' := by
  unfold JsObject.set
  split
  · exact prop_map_ne o k k' v h
  · exact prop_append_ne o k k' v h

theorem prop_spread_updateData (prev : JsObject) (formData : ClassSettingsPage.FormData)
    (k : String) (hk : k ∉ ["name", "description", "prodi"]) :
    (prev.spread (ClassSettingsPage.updateData formData)).prop k = prev.prop k := by
  simp only [List.mem_cons, List.mem_singleton, not_or, List.not_mem_nil, or_false] at hk
  obtain ⟨h1, h2, h3⟩ := hk
  simp only [JsObject.spread, ClassSettingsPage.updateData, List.foldl_cons, List.foldl_nil]
  rw [prop_set_ne _ _ _ _ h3, prop_set_ne _ _ _ _ h2, prop_set_ne _ _ _ _ h1]

theorem toUpper_toUpper (c : Char) : Char.toUpper (Char.toUpper c) = Char.toUpper c := by
  unfold Char.toUpper
  simp only []
  by_cases h : c.toNat ≥ 97 ∧ c.toNat ≤ 122
  · rw [if_pos h]
    have hlt : c.toNat - 32 < 0xd800 := by omega
    have hv : (Char.ofNat (c.toNat - 32)).toNat = c.toNat - 32 := by
      unfold Char.ofNat
      rw [dif_pos (Or.inl hlt)]
      rfl
    rw [hv, if_neg (by omega)]
  · rw [if_neg h, if_neg h]

theorem toUpperCase_idem (s : String) : toUpperCase (toUpperCase s) = toUpperCase s := by
  unfold toUpperCase
  simp only [List.map_map]
  congr 1
  apply List.map_congr_left
  intro c _
  exact toUpper_toUpper c

theorem formatSupabaseError_nonempty (error : SupabaseError) :
    ∃ msg, formatSupabaseError (some error) = some msg ∧ msg ≠ "" := by
  have horElse : ∀ (a : Option String) (b : String), b ≠ "" → orElse a b ≠ "" := by
    intro a b hb
    unfold orElse
    cases a with
    | none => exact hb
    | some s =>
      by_cases hs : s = ""
      · simp [hs, hb]
      · simp [hs]
  have hmsg : orElse error.message (orElse error.details "Terjadi kesalahan") ≠ "" :=
    horElse _ _ (horElse _ _ (by decide))
  unfold formatSupabaseError
  simp only []
  cases hf : errorMappings.find? (fun entry =>
      includes (toLowerCase (orElse error.message (orElse error.details "Terjadi kesalahan")))
        entry.1) with
  | none => exact ⟨_, rfl, hmsg⟩
  | some entry =>
    have hmem := List.mem_of_find?_eq_some hf
    have hall : ∀ e ∈ errorMappings, e.2 ≠ "" := by decide
    exact ⟨_, rfl, hall entry hmem⟩

/-! ## Properties of the writes -/

/-- C17. The update `updateMemberStatus` sends carries a `joined_at` field
exactly when the status is `approved`; it always carries the given status and an
`updated_at` field; it addresses `class_members` by `id = memberId`, so a row
with another id is left as it is. -/
theorem updateMemberStatus_payload (memberId : JsValue) (status now₁ now₂ : String) :
    ("joined_at" ∈ (updateMemberStatus memberId status now₁ now₂).updates.keys ↔
      status = "approved") ∧
    (updateMemberStatus memberId status now₁ now₂).updates.prop "status" = .str status ∧
    "updated_at" ∈ (updateMemberStatus memberId status now₁ now₂).updates.keys ∧
    (updateMemberStatus memberId status now₁ now₂).table = "class_members" ∧
    (updateMemberStatus memberId status now₁ now₂).eqColumn = "id" ∧
    (updateMemberStatus memberId status now₁ now₂).eqValue = memberId ∧
    (∀ (rows : List JsObject) (i : Nat) (hi : i < rows.length),
      rows[i].prop "id" ≠ memberId →
      ((updateMemberStatus memberId status now₁ now₂).run rows)[i]? = some rows[i]) := by
  by_cases h : status = "approved"
  · refine ⟨?_, ?_, ?_, rfl, rfl, rfl, ?_⟩
    · simp [updateMemberStatus, h, JsObject.set, JsObject.keys]
    · simp [updateMemberStatus, h, JsObject.set, JsObject.prop]
    · simp [updateMemberStatus, h, JsObject.set, JsObject.keys]
    · intro rows i hi hne
      simp [UpdateRequest.run, List.getElem?_map, List.getElem?_eq_getElem hi,
        updateMemberStatus, hne]
  · refine ⟨?_, ?_, ?_, rfl, rfl, rfl, ?_⟩
    · simp [updateMemberStatus, h, JsObject.keys]
    · simp [updateMemberStatus, h, JsObject.prop]
    · simp [updateMemberStatus, h, JsObject.keys]
    · intro rows i hi hne
      simp [UpdateRequest.run, List.getElem?_map, List.getElem?_eq_getElem hi,
        updateMemberStatus, hne]

theorem updateMemberStatus_payload_witness :
    ((updateMemberStatus (.num 5) "rejected" "t1" "t2").run
        [[("id", .num 4), ("status", .str "pending")],
         [("id", .num 5), ("status", .str "pending")]])[0]?
      = some [("id", .num 4), ("status", .str "pending")] :=
  (updateMemberStatus_payload (.num 5) "rejected" "t1" "t2").2.2.2.2.2.2
    [[("id", .num 4), ("status", .str "pending")],
     [("id", .num 5), ("status", .str "pending")]] 0 (by decide) (by decide)

/-- C18. The name `createClass` inserts is the upper-cased input name, the name
in the update `handleSave` hands to `updateClass` (and in the request
`updateClass` sends) is the upper-cased trimmed form name, and upper-casing
either name again leaves it unchanged. -/
theorem class_name_uppercased (classData : ClassData)
    (formData : ClassSettingsPage.FormData) (classId : JsValue) (now : String) :
    (createClass classData).name = toUpperCase classData.name ∧
    (ClassSettingsPage.updateData formData).prop "name"
      = .str (toUpperCase (trim formData.name)) ∧
    (updateClass classId (ClassSettingsPage.updateData formData) now).updates.prop "name"
      = .str (toUpperCase (trim formData.name)) ∧
    toUpperCase (createClass classData).name = (createClass classData).name ∧
    toUpperCase (toUpperCase (trim formData.name)) = toUpperCase (trim formData.name) := by
  refine ⟨rfl, ?_, ?_, toUpperCase_idem _, toUpperCase_idem _⟩
  · simp [ClassSettingsPage.updateData, JsObject.prop]
  · have hne : ("name" : String) ≠ "updated_at" := by decide
    simp only [updateClass, JsObject.spread, List.foldl_cons, List.foldl_nil]
    rw [prop_set_ne _ _ _ _ hne]
    simp [ClassSettingsPage.updateData, JsObject.prop]

/-- C19. The object `handleSave` hands to `updateClass` has exactly the fields
`name`, `description` and `prodi`, so no `member_limit` (nor has the request
`updateClass` sends), and whatever `handleSave` leaves in `classData` has the
same `member_limit`, and the same value in every field other than those three,
as before. -/
theorem handleSave_keeps_member_limit (api : Api) (user : Option User) (isCreator : Bool)
    (classId : JsValue) (formData : ClassSettingsPage.FormData)
    (classData : Option JsObject) (success₀ : Bool) (now : String) :
    (∀ c ∈ (ClassSettingsPage.handleSave api user isCreator classId formData classData
        success₀).calls,
      c = .updateClass classId (ClassSettingsPage.updateData formData)) ∧
    (ClassSettingsPage.updateData formData).keys = ["name", "description", "prodi"] ∧
    "member_limit" ∉ (ClassSettingsPage.updateData formData).keys ∧
    (updateClass classId (ClassSettingsPage.updateData formData) now).updates.keys
      = ["name", "description", "prodi", "updated_at"] ∧
    (∀ new : JsObject,
      (ClassSettingsPage.handleSave api user isCreator classId formData classData
        success₀).classData = some new →
      new.prop "member_limit" = (classData.getD []).prop "member_limit" ∧
      ∀ k : String, k ∉ ["name", "description", "prodi"] →
        new.prop k = (classData.getD []).prop k) := by
  have hframe : ∀ new : JsObject,
      (ClassSettingsPage.handleSave api user isCreator classId formData classData
        success₀).classData = some new →
      ∀ k : String, k ∉ ["name", "description", "prodi"] →
        new.prop k = (classData.getD []).prop k := by
    intro new hnew k hk
    unfold ClassSettingsPage.handleSave at hnew
    split at hnew
    · simp only [] at hnew
      rw [hnew]
      rfl
    · split at hnew
      · simp only [] at hnew
        rw [hnew]
        rfl
      · split at hnew
        · simp only [] at hnew
          rw [hnew]
          rfl
        · split at hnew
          · simp only [] at hnew
            rw [hnew]
            rfl
          · simp only [Option.some.injEq] at hnew
            rw [← hnew]
            exact prop_spread_updateData _ formData k hk
  refine ⟨?_, rfl, by simp [ClassSettingsPage.updateData, JsObject.keys], ?_, ?_⟩
  · intro c hc
    unfold ClassSettingsPage.handleSave at hc
    split at hc
    · simp at hc
    · split at hc
      · simp at hc
      · split at hc
        · simp at hc
        · split at hc <;> simpa using hc
  · simp [updateClass, JsObject.spread, ClassSettingsPage.updateData, JsObject.set,
      JsObject.keys]
  · intro new hnew
    exact ⟨hframe new hnew "member_limit" (by decide), hframe new hnew⟩

theorem handleSave_keeps_member_limit_witness :
    (ClassSettingsPage.handleSave
        ⟨fun _ _ => ⟨none, none⟩, fun _ => ⟨none, none⟩, fun _ _ => ⟨none, none⟩,
          fun _ => ⟨none, none⟩, fun _ _ => ⟨none, none⟩⟩
        (some ⟨.str "u1", none⟩) true (.num 1) ⟨" r.1.h ", "Kelas pagi", "Fisika"⟩
        (some [("id", .num 1), ("name", .str "R.1.A"), ("member_limit", .num 30)])
        false).classData
      = some [("id", .num 1), ("name", .str "R.1.H"), ("member_limit", .num 30),
          ("description", .str "Kelas pagi"), ("prodi", .str "Fisika")] ∧
    JsObject.prop [("id", .num 1), ("name", .str "R.1.H"), ("member_limit", .num 30),
          ("description", .str "Kelas pagi"), ("prodi", .str "Fisika")] "member_limit"
      = JsObject.prop ((some [("id", .num 1), ("name", .str "R.1.A"),
          ("member_limit", .num 30)] : Option JsObject).getD []) "member_limit" :=
  ⟨by decide,
   ((handleSave_keeps_member_limit
      ⟨fun _ _ => ⟨none, none⟩, fun _ => ⟨none, none⟩, fun _ _ => ⟨none, none⟩,
        fun _ => ⟨none, none⟩, fun _ _ => ⟨none, none⟩⟩
      (some ⟨.str "u1", none⟩) true (.num 1) ⟨" r.1.h ", "Kelas pagi", "Fisika"⟩
      (some [("id", .num 1), ("name", .str "R.1.A"), ("member_limit", .num 30)])
      false "t").2.2.2.2 _ (by decide)).1⟩

/-- C20. In `loadDashboardData`, for a class with an id: when the schedules fetch
returns an error the `schedules` list stays as it was and the `error` state ends
as a non-empty message; when it returns no error the list becomes the fetched
data, or the empty list when the data is null. The same holds for the members
fetch and the `members` list, whatever the other fetch returned. -/
theorem loadDashboardData_fails_open (userClass : Option UserClass)
    (schedulesResult membersResult : Response (List Row)) (s : Dashboard.State)
    (hid : (userClassId userClass).truthy = true) :
    (∀ e, schedulesResult.error = some e →
      (Dashboard.loadDashboardData userClass schedulesResult membersResult s).schedules
        = s.schedules ∧
      ∃ msg, (Dashboard.loadDashboardData userClass schedulesResult membersResult s).error
        = some msg ∧ msg ≠ "") ∧
    (schedulesResult.error = none →
      (Dashboard.loadDashboardData userClass schedulesResult membersResult s).schedules
        = schedulesResult.data.getD []) ∧
    (∀ e, membersResult.error = some e →
      (Dashboard.loadDashboardData userClass schedulesResult membersResult s).members
        = s.members ∧
      ∃ msg, (Dashboard.loadDashboardData userClass schedulesResult membersResult s).error
        = some msg ∧ msg ≠ "") ∧
    (membersResult.error = none →
      (Dashboard.loadDashboardData userClass schedulesResult membersResult s).members
        = membersResult.data.getD []) := by
  unfold Dashboard.loadDashboardData
  simp only [hid, Bool.not_true, Bool.false_eq_true, if_false]
  cases hs : schedulesResult.error with
  | none =>
    cases hm : membersResult.error with
    | none => simp
    | some em => simpa using formatSupabaseError_nonempty em
  | some es =>
    cases hm : membersResult.error with
    | none => simpa using formatSupabaseError_nonempty es
    | some em => simpa using formatSupabaseError_nonempty em

theorem loadDashboardData_fails_open_witness :
    (Dashboard.loadDashboardData (some ⟨.num 1, .str "u1", "R.1.H"⟩)
        ⟨none, some ⟨some "permission denied for table schedules", none, none⟩⟩
        ⟨some [rowC], none⟩
        ⟨[rowA, rowB], [], false, none⟩)
      = ⟨[rowA, rowB], [rowC], false, some "Tidak memiliki izin untuk aksi ini"⟩ ∧
    (Dashboard.loadDashboardData (some ⟨.num 1, .str "u1", "R.1.H"⟩)
        ⟨none, some ⟨some "permission denied for table schedules", none, none⟩⟩
        ⟨some [rowC], none⟩
        ⟨[rowA, rowB], [], false, none⟩).schedules = [rowA, rowB] :=
  ⟨by decide,
   ((loadDashboardData_fails_open (some ⟨.num 1, .str "u1", "R.1.H"⟩)
      ⟨none, some ⟨some "permission denied for table schedules", none, none⟩⟩
      ⟨some [rowC], none⟩ ⟨[rowA, rowB], [], false, none⟩ (by decide)).1 _ rfl).1⟩

/-! ## Subscriptions over the life of a component -/

theorem openAfter_dashboard_run (classId : JsValue) (rest : List FeedOp) :
    List.foldl (fun opened op =>
        match op with
        | FeedOp.subscribe channel scope => opened ++ [(channel, scope)]
        | FeedOp.unsubscribe channel scope =>
          opened.filter (fun s => decide (s ≠ (channel, scope)))) []
      ((Dashboard.realtimeEffect classId).ops ++
        cleanupOps (Dashboard.realtimeEffect classId).cleanup ++ rest)
    = List.foldl (fun opened op =>
        match op with
        | FeedOp.subscribe channel scope => opened ++ [(channel, scope)]
        | FeedOp.unsubscribe channel scope =>
          opened.filter (fun s => decide (s ≠ (channel, scope)))) [] rest := by
  unfold Dashboard.realtimeEffect cleanupOps
  by_cases h : classId.truthy = true
  · have h1 : ¬ (("class_members" : String) = "schedules") := by decide
    simp [h, List.filter_cons, h1]
  · simp [h]

theorem openAfter_dashboard_from (classId : JsValue) (later : List JsValue) :
    openAfter ((Dashboard.realtimeEffect classId).ops ++
      lifecycleFrom Dashboard.realtimeEffect (Dashboard.realtimeEffect classId).cleanup later)
      = [] := by
  induction later generalizing classId with
  | nil =>
    have h := openAfter_dashboard_run classId []
    simp only [List.append_nil] at h
    unfold openAfter lifecycleFrom
    rw [h]
    rfl
  | cons scope rest ih =>
    have h := openAfter_dashboard_run classId
      ((Dashboard.realtimeEffect scope).ops ++
        lifecycleFrom Dashboard.realtimeEffect (Dashboard.realtimeEffect scope).cleanup rest)
    have ih' := ih scope
    unfold openAfter at ih' ⊢
    unfold lifecycleFrom
    simp only [List.append_assoc] at h ⊢
    rw [h]
    exact ih'

/-- C21 at the failing input: the notification effect of `Header` returns no
cleanup, so the subscription opened for user `u1` is still open after the
component unmounted, and after a change of user to `u2` both subscriptions are
open, although `setupNotificationSubscription` did return the unsubscribe. The
`Dashboard` effect does cancel: over any sequence of class ids no subscription
of it is left open. -/
theorem header_subscription_never_cancelled :
    lifecycle Header.notificationEffect [.str "u1"]
      = [.subscribe "notifications" (.str "u1")] ∧
    openAfter (lifecycle Header.notificationEffect [.str "u1"])
      = [("notifications", .str "u1")] ∧
    openAfter (lifecycle Header.notificationEffect [.str "u1", .str "u2"])
      = [("notifications", .str "u1"), ("notifications", .str "u2")] ∧
    (Header.setupNotificationSubscription (.str "u1")).2
      = some [.unsubscribe "notifications" (.str "u1")] ∧
    (∀ scopes : List JsValue, openAfter (lifecycle Dashboard.realtimeEffect scopes) = []) := by
  refine ⟨by decide, by decide, by decide, by decide, ?_⟩
  intro scopes
  cases scopes with
  | nil => rfl
  | cons scope later => exact openAfter_dashboard_from scope later

/-! ## Properties of the schedule forms -/

/-- C22. `handleSubmit` of `AddSchedule` calls `createSchedule` only when
`validateForm` returned true, and `validateForm` returns true exactly when the
title is not blank and has 3 to 100 characters, the description is not blank and
has 5 to 500 characters, the date is present, not before today and not after one
year from now, the time is present and the type is `homework` or `exam`. -/
theorem addSchedule_validateForm_iff (clock : Clock) (formData : AddSchedule.FormData)
    (api : Api) (apiError₀ : Option String) (user : User) (userClass : UserClass) :
    ((AddSchedule.handleSubmit api (AddSchedule.validateForm clock formData) apiError₀ user
        userClass formData).calls ≠ [] →
      AddSchedule.validateForm clock formData = true) ∧
    (AddSchedule.validateForm clock formData = true ↔
      (trim formData.title ≠ "" ∧ 3 ≤ jsLength formData.title ∧
        jsLength formData.title ≤ 100) ∧
      (trim formData.description ≠ "" ∧ 5 ≤ jsLength formData.description ∧
        jsLength formData.description ≤ 500) ∧
      (formData.date ≠ "" ∧
        dateBefore (clock.parse formData.date) clock.today = false ∧
        dateAfter (clock.parse formData.date) clock.oneYearFromNow = false) ∧
      formData.time ≠ "" ∧
      (formData.type = "homework" ∨ formData.type = "exam")) := by
  constructor
  · intro h
    by_cases hv : AddSchedule.validateForm clock formData = true
    · exact hv
    · exfalso
      apply h
      simp [AddSchedule.handleSubmit, hv]
  · unfold AddSchedule.validateForm AddSchedule.newErrors
    simp only [Bool.and_eq_true, Option.isNone_iff_eq_none]
    constructor
    · rintro ⟨⟨⟨⟨ht, hd⟩, hdate⟩, htime⟩, htype⟩
      refine ⟨?_, ?_, ?_, ?_, ?_⟩
      · split at ht
        · simp at ht
        · split at ht
          · simp at ht
          · split at ht
            · simp at ht
            · refine ⟨by assumption, by omega, by omega⟩
      · split at hd
        · simp at hd
        · split at hd
          · simp at hd
          · split at hd
            · simp at hd
            · refine ⟨by assumption, by omega, by omega⟩
      · split at hdate
        · simp at hdate
        · split at hdate
          · simp at hdate
          · split at hdate
            · simp at hdate
            · next h1 h2 h3 =>
              exact ⟨h1, by simpa using h3, by simpa using h2⟩
      · split at htime
        · simp at htime
        · assumption
      · split at htype
        · assumption
        · simp at htype
    · rintro ⟨⟨ht1, ht2, ht3⟩, ⟨hd1, hd2, hd3⟩, ⟨hx1, hx2, hx3⟩, htime, htype⟩
      have ht2' : ¬ jsLength formData.title < 3 := by omega
      have ht3' : ¬ jsLength formData.title > 100 := by omega
      have hd2' : ¬ jsLength formData.description < 5 := by omega
      have hd3' : ¬ jsLength formData.description > 500 := by omega
      simp [ht1, ht2', ht3', hd1, hd2', hd3', hx1, hx2, hx3, htime, htype]

theorem addSchedule_validateForm_iff_witness :
    AddSchedule.validateForm sampleClock
      ⟨"PR Matematika", "Kerjakan halaman 45-50", "2024-09-14", "10:00", "homework"⟩ = true :=
  (addSchedule_validateForm_iff sampleClock
    ⟨"PR Matematika", "Kerjakan halaman 45-50", "2024-09-14", "10:00", "homework"⟩
    sampleApi none ⟨.str "u1", none⟩ ⟨.num 1, .str "u1", "R.1.H"⟩).2.mpr (by decide)

/-- C23 at the failing input: a title of two blanks and one letter and a
description of four blanks and one letter pass `validateForm` of `AddSchedule`
and of `EditSchedule`, and the call then carries the trimmed title `a` and the
trimmed description `b`, of one character each. -/
theorem trimmed_title_shorter_than_validated :
    AddSchedule.validateForm sampleClock ⟨"  a", "    b", "2024-09-14", "10:00", "homework"⟩
      = true ∧
    (AddSchedule.handleSubmit sampleApi
        (AddSchedule.validateForm sampleClock
          ⟨"  a", "    b", "2024-09-14", "10:00", "homework"⟩)
        none ⟨.str "u1", none⟩ ⟨.num 1, .str "u1", "R.1.H"⟩
        ⟨"  a", "    b", "2024-09-14", "10:00", "homework"⟩).calls
      = [.createSchedule
          [("class_id", .num 1), ("title", .str "a"), ("description", .str "b"),
           ("date", .str "2024-09-14"), ("time", .str "10:00"), ("type", .str "homework"),
           ("created_by", .str "u1")]] ∧
    EditSchedule.validateForm sampleClock ⟨"  a", "    b", "2024-09-14", "10:00", "homework"⟩
      = true ∧
    (EditSchedule.handleSubmit sampleApi true
        (EditSchedule.validateForm sampleClock
          ⟨"  a", "    b", "2024-09-14", "10:00", "homework"⟩)
        rowA ⟨"  a", "    b", "2024-09-14", "10:00", "homework"⟩).calls
      = [.updateSchedule (.num 1)
          [("title", .str "a"), ("description", .str "b"),
           ("schedule_date", .str "2024-09-14"), ("schedule_time", .str "10:00"),
           ("type", .str "homework")]] ∧
    jsLength "a" = 1 ∧ jsLength "b" = 1 := by
  refine ⟨by decide, by decide, by decide, by decide, by decide, by decide⟩

/-! ## Properties of the settings gate (App.jsx) -/

theorem handleNavigateToSettings_cases (s : App.State) :
    ((profileRole s.userProfile = .str "creator" ∧
        classCreatorId s.userClass = userId s.currentUser) →
      App.handleNavigateToSettings s = { s with appState := "classSettings" }) ∧
    (¬ (profileRole s.userProfile = .str "creator" ∧
        classCreatorId s.userClass = userId s.currentUser) →
      App.handleNavigateToSettings s = s) := by
  constructor
  · rintro ⟨h1, h2⟩
    simp [App.handleNavigateToSettings, h1, h2]
  · intro h
    unfold App.handleNavigateToSettings
    by_cases h1 : profileRole s.userProfile = .str "creator"
    · have h2 : ¬ classCreatorId s.userClass = userId s.currentUser := fun hc => h ⟨h1, hc⟩
      simp [h1, h2]
    · simp [h1]

theorem inv_of_user (s : App.State) (u : User) (hu : s.currentUser = some u)
    (hid : u.id ≠ .undefined) : App.Inv s := by
  refine ⟨fun _ => by simp [hu], fun _ => by simp [hu], ?_⟩
  intro v hv
  rw [hu] at hv
  cases hv
  exact hid

theorem inv_appState_outside (s : App.State) (a : String) (hs : App.Inv s)
    (ha : a ∉ ["createClass", "joinClass", "dashboard", "profile", "classSettings"]) :
    App.Inv { s with appState := a } :=
  ⟨hs.1, fun h => absurd h ha, hs.2.2⟩

theorem inv_appState_inside (s : App.State) (a : String) (hs : App.Inv s)
    (hu : s.currentUser ≠ none) : App.Inv { s with appState := a } :=
  ⟨hs.1, fun _ => hu, hs.2.2⟩

theorem inv_loadUserData (user : Option User) (r : App.LoadResult) (s : App.State)
    (hwf : ∀ u, user = some u → u.id ≠ .undefined) (hs : App.Inv s) :
    App.Inv (App.loadUserData user r s) := by
  unfold App.loadUserData
  cases user with
  | none => exact inv_appState_outside s _ hs (by decide)
  | some u =>
    have hid := hwf u rfl
    simp only []
    split
    · exact inv_appState_outside s _ hs (by decide)
    · split
      · exact inv_appState_outside s _ hs (by decide)
      · split
        · exact inv_of_user _ u rfl hid
        · split
          · exact inv_of_user _ u rfl hid
          · split
            · exact inv_of_user _ u rfl hid
            · split
              · exact inv_of_user _ u rfl hid
              · exact inv_of_user _ u rfl hid

theorem inv_step (e : App.Event) (s : App.State) (hwf : e.wellFormed = true)
    (hs : App.Inv s) : App.Inv (App.step e s) := by
  cases e with
  | checkUserSession user error r =>
    simp only [App.step]
    split
    · unfold App.checkUserSession
      split
      · exact inv_appState_outside s _ hs (by decide)
      · apply inv_loadUserData user r s _ hs
        intro u hu
        subst hu
        simpa [App.Event.wellFormed] using hwf
    · exact hs
  | handleLogin user r =>
    simp only [App.step]
    split
    · exact hs
    · apply inv_loadUserData user r s _ hs
      intro u hu
      subst hu
      simpa [App.Event.wellFormed] using hwf
  | handleRoleSelect role failed =>
    simp only [App.step]
    split
    · unfold App.handleRoleSelect
      cases hu : s.currentUser with
      | none => exact hs
      | some u =>
        simp only []
        split
        · exact hs
        · exact inv_of_user _ u rfl (hs.2.2 u hu)
    · exact hs
  | handleClassCreated newClass =>
    simp only [App.step]
    split
    · next h =>
      have hu : s.currentUser ≠ none := hs.2.1 (by simp [h])
      exact ⟨hs.1, fun _ => hu, hs.2.2⟩
    · exact hs
  | handleClassJoined joinedClass =>
    simp only [App.step]
    split
    · next h =>
      have hu : s.currentUser ≠ none := hs.2.1 (by simp [h])
      exact ⟨hs.1, fun _ => hu, hs.2.2⟩
    · exact hs
  | handleNavigateToProfile =>
    simp only [App.step]
    split
    · next h => exact inv_appState_inside s _ hs (hs.2.1 (by simp [h]))
    · exact hs
  | handleNavigateToSettings =>
    simp only [App.step]
    split
    · next h =>
      unfold App.handleNavigateToSettings
      split
      · exact inv_appState_inside s _ hs (hs.2.1 (by simp [h]))
      · exact hs
    · exact hs
  | handleBackFromProfile =>
    simp only [App.step]
    split
    · next h => exact inv_appState_inside s _ hs (hs.2.1 (by simp [h]))
    · exact hs
  | handleBackFromSettings =>
    simp only [App.step]
    split
    · next h => exact inv_appState_inside s _ hs (hs.2.1 (by simp [h]))
    · exact hs
  | handleProfileUpdated updatedProfile =>
    simp only [App.step]
    split
    · next h =>
      have hu : s.currentUser ≠ none := hs.2.1 (by simp [h])
      exact ⟨fun _ => hu, hs.2.1, hs.2.2⟩
    · exact hs
  | handleLogout throws =>
    simp only [App.step]
    split
    · unfold App.handleLogout
      split
      · exact hs
      · exact ⟨fun h => absurd rfl h, fun h => by simp at h, fun u hu => by simp at hu⟩
    · exact hs

theorem inv_foldl (events : List App.Event) (s : App.State)
    (hwf : ∀ e ∈ events, e.wellFormed = true) (hs : App.Inv s) :
    App.Inv (events.foldl (fun s e => App.step e s) s) := by
  induction events generalizing s with
  | nil => exact hs
  | cons e rest ih =>
    exact ih (App.step e s) (fun x hx => hwf x (List.mem_cons_of_mem _ hx))
      (inv_step e s (hwf e (List.mem_cons_self _ _)) hs)

theorem inv_run (events : List App.Event) (hwf : ∀ e ∈ events, e.wellFormed = true) :
    App.Inv (App.run events) :=
  inv_foldl events App.initial hwf
    ⟨fun h => absurd rfl h, fun h => by simp [App.initial] at h,
     fun u hu => by simp [App.initial] at hu⟩

theorem gate_iff_isClassCreator (s : App.State) (hs : App.Inv s) :
    (profileRole s.userProfile = .str "creator" ∧
      classCreatorId s.userClass = userId s.currentUser) ↔ App.isClassCreator s := by
  constructor
  · rintro ⟨hrole, hid⟩
    cases hp : s.userProfile with
    | none => simp [hp, profileRole] at hrole
    | some p =>
      have hu : s.currentUser ≠ none := hs.1 (by simp [hp])
      cases hcu : s.currentUser with
      | none => exact absurd hcu hu
      | some u =>
        have hdef := hs.2.2 u hcu
        cases hc : s.userClass with
        | none =>
          rw [hc, hcu] at hid
          exact absurd hid.symm hdef
        | some c =>
          rw [hc, hcu] at hid
          rw [hp] at hrole
          exact ⟨p, u, c, hp, hrole, hcu, hc, hid⟩
  · rintro ⟨p, u, c, hp, hrole, hu, hc, hid⟩
    simp [hp, hu, hc, profileRole, classCreatorId, userId, hrole, hid]

/-- C24. In every state `App` reaches through its handlers,
`handleNavigateToSettings` sets `appState` to `classSettings`, and touches no
other field, when the profile's role is `creator` and the class on display was
created by the signed-in user; in every other state it leaves the state as it
is, in particular when no user is signed in and when no class is loaded. -/
theorem handleNavigateToSettings_only_for_class_creator (events : List App.Event)
    (hwf : ∀ e ∈ events, e.wellFormed = true) :
    (App.isClassCreator (App.run events) →
      App.handleNavigateToSettings (App.run events)
        = { App.run events with appState := "classSettings" }) ∧
    (¬ App.isClassCreator (App.run events) →
      App.handleNavigateToSettings (App.run events) = App.run events) ∧
    ((App.run events).currentUser = none →
      App.handleNavigateToSettings (App.run events) = App.run events) ∧
    ((App.run events).userClass = none →
      App.handleNavigateToSettings (App.run events) = App.run events) := by
  have hinv := inv_run events hwf
  have hiff := gate_iff_isClassCreator (App.run events) hinv
  have hcases := handleNavigateToSettings_cases (App.run events)
  have hno : ¬ App.isClassCreator (App.run events) →
      App.handleNavigateToSettings (App.run events) = App.run events :=
    fun h => hcases.2 (fun hg => h (hiff.mp hg))
  refine ⟨fun h => hcases.1 (hiff.mpr h), hno, ?_, ?_⟩
  · intro hu
    apply hno
    rintro ⟨_, u, _, _, _, hcu, _, _⟩
    rw [hu] at hcu
    cases hcu
  · intro hc
    apply hno
    rintro ⟨_, _, c, _, _, _, hcc, _⟩
    rw [hc] at hcc
    cases hcc

theorem handleNavigateToSettings_only_for_class_creator_witness :
    App.handleNavigateToSettings
        (App.run
          [.checkUserSession (some ⟨.str "u1", none⟩) false
            ⟨⟨some ⟨.str "creator", none⟩, none⟩, false,
              some [some ⟨.num 1, .str "u1", "R.1.H"⟩], false⟩])
      = { currentUser := some ⟨.str "u1", none⟩, userProfile := some ⟨.str "creator", none⟩,
          userClass := some ⟨.num 1, .str "u1", "R.1.H"⟩, appState := "classSettings" } ∧
    App.handleNavigateToSettings
        (App.run
          [.checkUserSession (some ⟨.str "u1", none⟩) false
            ⟨⟨some ⟨.str "creator", none⟩, none⟩, false, some [], false⟩])
      = { currentUser := some ⟨.str "u1", none⟩, userProfile := some ⟨.str "creator", none⟩,
          userClass := none, appState := "createClass" } :=
  ⟨((handleNavigateToSettings_only_for_class_creator
      [.checkUserSession (some ⟨.str "u1", none⟩) false
        ⟨⟨some ⟨.str "creator", none⟩, none⟩, false,
          some [some ⟨.num 1, .str "u1", "R.1.H"⟩], false⟩]
      (by decide)).1
      ⟨⟨.str "creator", none⟩, ⟨.str "u1", none⟩, ⟨.num 1, .str "u1", "R.1.H"⟩,
        by decide, rfl, by decide, by decide, rfl⟩).trans (by decide),
   ((handleNavigateToSettings_only_for_class_creator
      [.checkUserSession (some ⟨.str "u1", none⟩) false
        ⟨⟨some ⟨.str "creator", none⟩, none⟩, false, some [], false⟩]
      (by decide)).2.2.2 (by decide)).trans (by decide)⟩


/-! ## Properties of the notification list (Header.jsx) -/

/-- C25. On an INSERT event the notification list becomes the new notification
followed by the first nine of the previous ones, in their order, so it holds at
most ten; and no event makes a list of at most ten longer than ten. -/
theorem notification_insert_keeps_ten (payload : Payload) (s : Header.State)
    (h : payload.eventType = "INSERT") :
    (Header.onNotification payload s).notifications.length ≤ 10 ∧
    (Header.onNotification payload s).notifications.head? = some payload.new ∧
    (Header.onNotification payload s).notifications.tail = s.notifications.take 9 ∧
    (∀ (q : Payload) (t : Header.State), t.notifications.length ≤ 10 →
      (Header.onNotification q t).notifications.length ≤ 10) := by
  refine ⟨?_, ?_, ?_, ?_⟩
  · simp only [Header.onNotification, h, if_true, List.length_cons, List.length_take]
    omega
  · simp [Header.onNotification, h]
  · simp [Header.onNotification, h]
  · intro q t ht
    unfold Header.onNotification
    split
    · simp only [List.length_cons, List.length_take]
      omega
    · exact ht

theorem notification_insert_keeps_ten_witness :
    (Header.onNotification ⟨"INSERT", rowC, noRow⟩
        ⟨[rowA, rowB], 2⟩).notifications = [rowC, rowA, rowB] ∧
    (Header.onNotification ⟨"INSERT", rowC, noRow⟩ ⟨[rowA, rowB], 2⟩).notifications.length
      ≤ 10 :=
  ⟨by decide, (notification_insert_keeps_ten ⟨"INSERT", rowC, noRow⟩ ⟨[rowA, rowB], 2⟩ rfl).1⟩

/-- C28 at the failing input: with a read and an unread notification listed and
`unreadCount` 1, a successful click on the read one leaves one unread
notification in the list and sets `unreadCount` to 0; and with ten unread
notifications listed and `unreadCount` 10, an INSERT of an unread one leaves ten
unread in the list and sets `unreadCount` to 11. -/
theorem unreadCount_drifts_from_list :
    Header.unreadIn [readNotification, unreadNotification] = 1 ∧
    Header.unreadIn
      (Header.handleNotificationClick ⟨none, none⟩ readNotification.id
        ⟨[readNotification, unreadNotification], 1⟩).notifications = 1 ∧
    (Header.handleNotificationClick ⟨none, none⟩ readNotification.id
        ⟨[readNotification, unreadNotification], 1⟩).unreadCount = 0 ∧
    Header.unreadIn (List.replicate 10 unreadNotification) = 10 ∧
    Header.unreadIn
      (Header.onNotification ⟨"INSERT", unreadNotification, noRow⟩
        ⟨List.replicate 10 unreadNotification, 10⟩).notifications = 10 ∧
    (Header.onNotification ⟨"INSERT", unreadNotification, noRow⟩
        ⟨List.replicate 10 unreadNotification, 10⟩).unreadCount = 11 := by
  refine ⟨by decide, by decide, by decide, by decide, by decide, by decide⟩

/-! ## Properties of class search and class creation -/

/-- C27 at the failing input: a view row with `remaining_quota` 0 and a limit of
30 is formatted with `remaining_quota` 30, so the quota indicator reads "Sisa 30
slot" for a class whose button reads full; `current_members` does equal the
row's `approved_members`. -/
theorem zero_quota_formatted_as_limit :
    fullClassRow.remaining_quota = some 0 ∧
    (JoinClass.formatResult fullClassRow).remaining_quota = 30 ∧
    JoinClass.quotaIndicator (JoinClass.formatResult fullClassRow) = "Sisa 30 slot" ∧
    (JoinClass.formatResult fullClassRow).is_full = true ∧
    (JoinClass.formatResult fullClassRow).current_members = 30 := by
  refine ⟨rfl, by decide, by decide, by decide, by decide⟩

/-- C26, as the claim states it, fails. A form name of two letters that matches
an existing class is rejected with the minimum-length message, not the duplicate
message. And a form name with a leading blank passes the duplicate check against
the class R.1.H, although the name `createClass` then stores is R.1.H. -/
theorem duplicate_check_counterexample :
    (CreateClass.validateForm
        ⟨some [{ fullClassRow with name := "AB" }], none⟩
        ⟨"ab", "Kelas pagi hari", some 30, "Teknik Informatika"⟩)
      = (false, "Nama kelas minimal 3 karakter") ∧
    toUpperCase fullClassRow.name = toUpperCase (toUpperCase (trim " r.1.h")) ∧
    (CreateClass.validateForm ⟨some [fullClassRow], none⟩
        ⟨" r.1.h", "Kelas pagi hari", some 30, "Teknik Informatika"⟩) = (true, "") ∧
    (CreateClass.handleCreateClass ⟨some [fullClassRow], none⟩
        (fun _ => ⟨none, none⟩) false ⟨.str "u2", none⟩
        ⟨" r.1.h", "Kelas pagi hari", some 30, "Teknik Informatika"⟩).inserts
      = [{ name := "R.1.H", description := "Kelas pagi hari", creator_id := .str "u2",
           member_limit := 30, prodi := "Teknik Informatika" }] := by
  refine ⟨by decide, by decide, by decide, by decide⟩

/-- C26, amended. For a form name without leading or trailing whitespace and of
3 to 50 characters, and a search result that holds a class whose name equals,
ignoring case, the name `createClass` will store, `validateForm` rejects the form
with "Nama kelas sudah digunakan, pilih nama lain" and `handleCreateClass` hands
nothing to `createClass`. -/
theorem createClass_rejects_duplicate (search : Response (List ClassStatsRow))
    (create : ClassInsert → Response Row) (checkingDuplicate : Bool) (user : User)
    (formData : CreateClass.FormData) (rows : List ClassStatsRow)
    (htrim : trim formData.name = formData.name)
    (hmin : 3 ≤ jsLength formData.name) (hmax : jsLength formData.name ≤ 50)
    (herr : search.error = none) (hdata : search.data = some rows)
    (hdup : ∃ cls ∈ rows,
      toUpperCase cls.name = toUpperCase (toUpperCase (trim formData.name))) :
    CreateClass.validateForm search formData
      = (false, "Nama kelas sudah digunakan, pilih nama lain") ∧
    (CreateClass.handleCreateClass search create checkingDuplicate user formData).inserts
      = [] := by
  have hne : ¬ trim formData.name = "" := by
    intro h
    rw [h] at htrim
    rw [← htrim] at hmin
    simp [jsLength] at hmin
  have hmin' : ¬ jsLength formData.name < 3 := by omega
  have hmax' : ¬ jsLength formData.name > 50 := by omega
  have hcheck : CreateClass.checkDuplicateName search formData.name = true := by
    obtain ⟨cls, hcls, hname⟩ := hdup
    rw [toUpperCase_idem, htrim] at hname
    simp only [CreateClass.checkDuplicateName, hne, herr, hdata, if_false, List.any_eq_true]
    exact ⟨cls, hcls, by simpa using hname⟩
  have hvalid : CreateClass.validateForm search formData
      = (false, "Nama kelas sudah digunakan, pilih nama lain") := by
    simp [CreateClass.validateForm, CreateClass.newErrors, hne, hmin', hmax', hcheck]
  refine ⟨hvalid, ?_⟩
  simp [CreateClass.handleCreateClass, hvalid]

theorem createClass_rejects_duplicate_witness :
    CreateClass.validateForm ⟨some [fullClassRow], none⟩
        ⟨"r.1.h", "Kelas pagi hari", some 30, "Teknik Informatika"⟩
      = (false, "Nama kelas sudah digunakan, pilih nama lain") :=
  (createClass_rejects_duplicate ⟨some [fullClassRow], none⟩ (fun _ => ⟨none, none⟩) false
    ⟨.str "u2", none⟩ ⟨"r.1.h", "Kelas pagi hari", some 30, "Teknik Informatika"⟩
    [fullClassRow] (by decide) (by decide) (by decide) rfl rfl
    ⟨fullClassRow, by simp, by decide⟩).1


/-! ## Properties of the pagination (ScheduleList.jsx) -/

theorem le_totalPages_mul (n m : Nat) (hm : 0 < m) : n ≤ ScheduleList.totalPages n m * m := by
  have hq : (0 : ℚ) < (m : ℚ) := by exact_mod_cast hm
  have h := Nat.le_ceil ((n : ℚ) / (m : ℚ))
  rw [div_le_iff₀ hq] at h
  unfold ScheduleList.totalPages
  exact_mod_cast h

theorem mul_lt_of_lt_totalPages (n m j : Nat) (hm : 0 < m)
    (hj : j < ScheduleList.totalPages n m) : j * m < n := by
  have hq : (0 : ℚ) < (m : ℚ) := by exact_mod_cast hm
  unfold ScheduleList.totalPages at hj
  rw [Nat.lt_ceil, lt_div_iff₀ hq] at hj
  exact_mod_cast hj

theorem totalPages_eq (n m : Nat) (hm : 0 < m) :
    ScheduleList.totalPages n m = (n + m - 1) / m := by
  have h1 := le_totalPages_mul n m hm
  have h2 := fun j => mul_lt_of_lt_totalPages n m j hm
  generalize ScheduleList.totalPages n m = T at h1 h2
  symm
  apply Nat.div_eq_of_lt_le
  · rcases T with _ | t
    · simp
    · have h := h2 t (Nat.lt_succ_self t)
      have e : (t + 1) * m = t * m + m := by ring
      rw [e]
      omega
  · have e : (T + 1) * m = T * m + m := by ring
    rw [e]
    omega

theorem paginatedSchedules_succ (L : List Row) (k m : Nat) :
    ScheduleList.paginatedSchedules L (k + 1) m = (L.drop (k * m)).take m := by
  simp [ScheduleList.paginatedSchedules, ScheduleList.startIndex, jsSlice, List.drop_take]

theorem pages_upto (L : List Row) (m j : Nat) :
    (List.range j).flatMap (fun k => ScheduleList.paginatedSchedules L (k + 1) m)
      = L.take (j * m) := by
  induction j with
  | zero => simp
  | succ j ih =>
    rw [List.range_succ, List.flatMap_append, ih]
    have e : (j + 1) * m = j * m + m := by ring
    rw [e, List.take_add]
    simp [paginatedSchedules_succ]

/-- C29. For a filtered list of `n` schedules and a positive `itemsPerPage`,
`totalPages` is the ceiling of `n / itemsPerPage` (the least number of pages of
that size that hold `n`), the pages 1 to `totalPages` put one after the other
give back the filtered list, each of them holds at least one and at most
`itemsPerPage` schedules, and every page after `totalPages` is empty. -/
theorem pagination_partitions (filteredSchedules : List Row) (itemsPerPage : Nat)
    (hpos : 0 < itemsPerPage) :
    ScheduleList.totalPages filteredSchedules.length itemsPerPage
      = (filteredSchedules.length + itemsPerPage - 1) / itemsPerPage ∧
    filteredSchedules.length
      ≤ ScheduleList.totalPages filteredSchedules.length itemsPerPage * itemsPerPage ∧
    (∀ j, j < ScheduleList.totalPages filteredSchedules.length itemsPerPage →
      j * itemsPerPage < filteredSchedules.length) ∧
    (List.range (ScheduleList.totalPages filteredSchedules.length itemsPerPage)).flatMap
        (fun k => ScheduleList.paginatedSchedules filteredSchedules (k + 1) itemsPerPage)
      = filteredSchedules ∧
    (∀ page, 1 ≤ page →
      page ≤ ScheduleList.totalPages filteredSchedules.length itemsPerPage →
      1 ≤ (ScheduleList.paginatedSchedules filteredSchedules page itemsPerPage).length ∧
      (ScheduleList.paginatedSchedules filteredSchedules page itemsPerPage).length
        ≤ itemsPerPage) ∧
    (∀ page,
      ScheduleList.totalPages filteredSchedules.length itemsPerPage < page →
      ScheduleList.paginatedSchedules filteredSchedules page itemsPerPage = []) := by
  have hle := le_totalPages_mul filteredSchedules.length itemsPerPage hpos
  have hlt := fun j => mul_lt_of_lt_totalPages filteredSchedules.length itemsPerPage j hpos
  refine ⟨totalPages_eq _ _ hpos, hle, hlt, ?_, ?_, ?_⟩
  · rw [pages_upto]
    exact List.take_of_length_le hle
  · intro page h1 h2
    obtain ⟨k, rfl⟩ : ∃ k, page = k + 1 := ⟨page - 1, by omega⟩
    have hk := hlt k (by omega)
    rw [paginatedSchedules_succ, List.length_take, List.length_drop]
    constructor
    · have : 1 ≤ filteredSchedules.length - k * itemsPerPage := by omega
      exact le_min hpos this
    · exact min_le_left _ _
  · intro page hpage
    obtain ⟨k, rfl⟩ : ∃ k, page = k + 1 := ⟨page - 1, by omega⟩
    have hk : ScheduleList.totalPages filteredSchedules.length itemsPerPage ≤ k := by omega
    have hmul : ScheduleList.totalPages filteredSchedules.length itemsPerPage * itemsPerPage
        ≤ k * itemsPerPage := Nat.mul_le_mul_right _ hk
    rw [paginatedSchedules_succ, List.drop_eq_nil_of_le (by omega)]
    exact List.take_nil

theorem pagination_partitions_witness :
    ScheduleList.totalPages [rowA, rowB, rowC].length 2 = 2 ∧
    ScheduleList.paginatedSchedules [rowA, rowB, rowC] 1 2 = [rowA, rowB] ∧
    ScheduleList.paginatedSchedules [rowA, rowB, rowC] 2 2 = [rowC] ∧
    ScheduleList.paginatedSchedules [rowA, rowB, rowC] 3 2 = [] :=
  ⟨(pagination_partitions [rowA, rowB, rowC] 2 (by decide)).1.trans (by decide),
   by decide, by decide, by decide⟩

/-! ## Commutation of feed events -/

theorem replaceById_comm (a b e : Row) (h : a.id ≠ b.id) :
    replaceById a (replaceById b e) = replaceById b (replaceById a e) := by
  unfold replaceById
  by_cases ha : e.id = a.id
  · have hb : ¬ e.id = b.id := fun hc => h (ha.symm.trans hc)
    have hab : ¬ a.id = b.id := h
    simp [ha, hb, hab]
  · by_cases hb : e.id = b.id
    · have hba : ¬ b.id = a.id := fun hc => h hc.symm
      simp [ha, hb, hba]
    · simp [ha, hb]

/-- C30. For each of the three feed callbacks and every list: two UPDATE events
with different ids give the same list in either order, so do two DELETE events,
and so do an UPDATE and a DELETE with different ids; and one DELETE event
applied twice gives the same list as applied once. -/
theorem events_on_different_ids_commute (f : Feed) (L : List Row) (p q : Payload) :
    (p.eventType = "UPDATE" → q.eventType = "UPDATE" → p.new.id ≠ q.new.id →
      f.handler p (f.handler q L) = f.handler q (f.handler p L)) ∧
    (p.eventType = "DELETE" → q.eventType = "DELETE" →
      f.handler p (f.handler q L) = f.handler q (f.handler p L)) ∧
    (p.eventType = "UPDATE" → q.eventType = "DELETE" → p.new.id ≠ q.old.id →
      f.handler p (f.handler q L) = f.handler q (f.handler p L)) ∧
    (p.eventType = "DELETE" → f.handler p (f.handler p L) = f.handler p L) := by
  refine ⟨?_, ?_, ?_, ?_⟩
  · intro hp hq hne
    rw [handler_update f q L hq, handler_update f p L hp, handler_update f p _ hp,
      handler_update f q _ hq, List.map_map, List.map_map]
    apply List.map_congr_left
    intro e _
    exact replaceById_comm p.new q.new e hne
  · intro hp hq
    rw [handler_delete f q L hq, handler_delete f p L hp, handler_delete f p _ hp,
      handler_delete f q _ hq, List.filter_filter, List.filter_filter]
    congr 1
    funext e
    exact Bool.and_comm _ _
  · intro hp hq _
    rw [handler_delete f q L hq, handler_update f p L hp, handler_update f p _ hp,
      handler_delete f q _ hq, List.filter_map]
    congr 1
    apply List.filter_congr
    intro e _
    simp [Function.comp, replaceById_id]
  · intro hp
    rw [handler_delete f p L hp, handler_delete f p _ hp, List.filter_filter]
    congr 1
    funext e
    exact Bool.and_self _

theorem events_on_different_ids_commute_witness :
    Feed.dashboardMembers.handler ⟨"UPDATE", rowA2, rowA⟩
        (Feed.dashboardMembers.handler ⟨"DELETE", noRow, rowB⟩ [rowA, rowB, rowC])
      = Feed.dashboardMembers.handler ⟨"DELETE", noRow, rowB⟩
          (Feed.dashboardMembers.handler ⟨"UPDATE", rowA2, rowA⟩ [rowA, rowB, rowC]) ∧
    Feed.dashboardMembers.handler ⟨"UPDATE", rowA2, rowA⟩
        (Feed.dashboardMembers.handler ⟨"DELETE", noRow, rowB⟩ [rowA, rowB, rowC])
      = [rowA2, rowC] :=
  ⟨(events_on_different_ids_commute .dashboardMembers [rowA, rowB, rowC]
      ⟨"UPDATE", rowA2, rowA⟩ ⟨"DELETE", noRow, rowB⟩).2.2.1 rfl rfl (by decide),
   by decide⟩
end JadwalRH
